import Mathlib

/-!
Verification of the QTPFS path-search engine (PathSearch.cpp, PathThreads.h)
against its natural-language specification.  The C++ search code is shallowly
embedded: floating-point scalars become rationals, the `float` value
`+infinity` used for untouched path costs becomes `none : Option ℚ`, and the
external spatial index (node geometry, adjacency, transition points) is passed
in as explicit data.  All definitions are executable.
-/

set_option maxRecDepth 16000

namespace QTPFS

/-- 2D point with rational coordinates, modelling `float2` (x and the map z
coordinate, which the engine stores in the `y` member of `float2`). -/
structure Float2 where
  x : ℚ
  y : ℚ
deriving DecidableEq

/-- 3D point modelling `float3`; the search only ever reads `x` and `z`. -/
structure Float3 where
  x : ℚ
  y : ℚ
  z : ℚ
deriving DecidableEq

/-- Lift a stored 2D edge-transition point to a 3D point, as the search does
with `{tmpPoint2.x, 0.0f, tmpPoint2.y}`. -/
def float3OfNet (p : Float2) : Float3 := ⟨p.x, 0, p.y⟩

/-- Per-node mutable search record (`SearchNode`).  Its class body lives in
Node.h, which is not part of src/.  Modelled from the spec: it "holds
cost-so-far (g), heuristic cost (h), a predecessor reference (a plain index
into the same registry), the chosen crossing point used to reach this node,
and the priority value under which it was last pushed"; costs of a record
that has never been relaxed are infinite (`none`). -/
structure SearchNode where
  index : Int
  gCost : Option ℚ := none
  hCost : Option ℚ := none
  fCost : Option ℚ := none
  prevIdx : Option Int := none
  netPoint : Float2 := ⟨0, 0⟩
deriving DecidableEq

/-- `T()` : the default-constructed dummy record stored at dense slot 0. -/
def dummyNode : SearchNode := { index := 0 }

/-- `T(nodeId)` : a freshly constructed record for a node identifier. -/
def freshNode (nodeId : Int) : SearchNode := { index := nodeId }

/-- `SparseData<SearchNode>` (PathThreads.h).  `sparseIndex` maps node
identifiers to dense slots, `0` being the "unset" sentinel; `denseData` is the
backing store whose slot 0 is a permanent dummy record.  The two
`std::vector`s are modelled as lists; reads use `getD` (the code asserts
indices in bounds, so the default is never reached in a real run). -/
structure SparseData where
  sparseIndex : List Nat
  denseData : List SearchNode
deriving DecidableEq

/-- `Reset(sparseSize)` : clear the index table to the unset sentinel and
truncate the backing store to the single dummy record. -/
def SparseData.Reset (sparseSize : Nat) : SparseData :=
  { sparseIndex := List.replicate sparseSize 0
  , denseData := [dummyNode] }

/-- `InsertAtIndex(data, index)` : allocate a new dense slot on first touch,
otherwise overwrite the existing slot. -/
def SparseData.InsertAtIndex (sd : SparseData) (data : SearchNode) (index : Nat) :
    SparseData :=
  if sd.sparseIndex.getD index 0 = 0 then
    { sparseIndex := sd.sparseIndex.set index sd.denseData.length
    , denseData := sd.denseData ++ [data] }
  else
    { sd with denseData := sd.denseData.set (sd.sparseIndex.getD index 0) data }

/-- `operator[](i)` : the record currently associated with identifier `i`
(the dummy record when `i` is unset). -/
def SparseData.get (sd : SparseData) (i : Int) : SearchNode :=
  sd.denseData.getD (sd.sparseIndex.getD i.toNat 0) dummyNode

/-- The dense slot associated with identifier `i` (0 when unset). -/
def SparseData.slotOf (sd : SparseData) (i : Int) : Nat :=
  sd.sparseIndex.getD i.toNat 0

/-- `InsertINode(nodeId)` : unconditional insert; negative identifiers map to
the dummy slot 0.  Returns the updated store and the slot of the returned
reference. -/
def SparseData.InsertINode (sd : SparseData) (nodeId : Int) :
    SparseData × Nat :=
  if nodeId < 0 then (sd, 0)
  else
    let sd' := sd.InsertAtIndex (freshNode nodeId) nodeId.toNat
    (sd', sd'.sparseIndex.getD nodeId.toNat 0)

/-- `InsertINodeIfNotPresent(nodeId)` : insert-or-fetch; negative identifiers
map to the dummy slot 0. -/
def SparseData.InsertINodeIfNotPresent (sd : SparseData) (nodeId : Int) :
    SparseData × Nat :=
  if nodeId < 0 then (sd, 0)
  else if sd.sparseIndex.getD nodeId.toNat 0 = 0 then
    let sd' := sd.InsertAtIndex (freshNode nodeId) nodeId.toNat
    (sd', sd'.sparseIndex.getD nodeId.toNat 0)
  else (sd, sd.sparseIndex.getD nodeId.toNat 0)

/-- Mutation of the record behind identifier `i` through the reference
returned by `operator[]`, i.e. a write into the dense slot of `i`. -/
def SparseData.modifyRecord (sd : SparseData) (i : Int)
    (f : SearchNode → SearchNode) : SparseData :=
  { sd with
    denseData := sd.denseData.set (sd.sparseIndex.getD i.toNat 0)
      (f (sd.denseData.getD (sd.sparseIndex.getD i.toNat 0) dummyNode)) }

/-- `isSet(i)`. -/
def SparseData.isSet (sd : SparseData) (i : Nat) : Bool :=
  sd.sparseIndex.getD i 0 ≠ 0

end QTPFS

namespace QTPFS

/-- The loop `while (n >>= 1) { c = c << 1; }` of `GetNextBitShift`,
returning the final value of `c`.  The loop is bounded by an explicit step
budget (first argument) so that the definition is structurally recursive;
`bitShiftFuel_stable` shows the budget used below always suffices. -/
def bitShiftFuel : Nat → Nat → Nat → Nat
  | 0, _, c => c
  | fuel + 1, n, c =>
    if n >>> 1 = 0 then c else bitShiftFuel fuel (n >>> 1) (c <<< 1)

/-- `GetNextBitShift(n)` : documented as "the bit shift needed for the power
of two number that is slightly bigger than the given number". -/
def GetNextBitShift (n : Nat) : Nat :=
  bitShiftFuel n (if n > 0 then n - 1 else 0) 0 + 1

/-- `2^32`, the modulus of `uint32_t` arithmetic. -/
def U32 : Nat := 2 ^ 32

/-- `2^64`, the modulus of `uint64_t` arithmetic. -/
def U64 : Nat := 2 ^ 64

/-- Modelled from the spec: the sentinel "unshareable" value `BAD_HASH`
(its numeric definition lives in a header that is not part of src/); taken to
be the all-ones 64-bit word. -/
def BAD_HASH : Nat := U64 - 1

/-- `GetChildId(nodeNumber, i, rootMask)` : fold a quadrant choice into a
running node-number, keeping the root bits selected by `rootMask` stable. -/
def GetChildId (nodeNumber i rootMask : Nat) : Nat :=
  let rootId := rootMask &&& nodeNumber
  let nodeId := ((U32 - 1) ^^^ rootMask) &&& nodeNumber
  rootId ||| (((nodeId <<< 2) + (i + 1)) % U32)

/-- Immutable quad-tree node data read by the search (`INode`, whose class
body lives in Node.h outside src/).  Fields are the accessors PathSearch.cpp
calls: node number, extents, average move cost, the all-squares-impassable
flag, the neighbour identifier list and the per-edge candidate transition
points (`GetNeighborEdgeTransitionPoint`). -/
structure INode where
  nodeNumber : Nat
  xmin : Nat
  xmax : Nat
  zmin : Nat
  zmax : Nat
  moveCost : ℚ
  impassable : Bool
  neighbors : List Int
  netPointAt : Nat → Float2

/-- `xsize()` of a node. -/
def INode.xsize (n : INode) : Nat := n.xmax - n.xmin

/-- `xmid()` of a node. -/
def INode.xmid (n : INode) : Nat := (n.xmin + n.xmax) >>> 1

/-- `zmid()` of a node. -/
def INode.zmid (n : INode) : Nat := (n.zmin + n.zmax) >>> 1

/-- `SQUARE_SIZE` (GlobalConstants.h): world units per heightmap square. -/
def SQUARE_SIZE : Nat := 8

/-- Truncation of a nonnegative world coordinate divided by `SQUARE_SIZE`
into a `uint32_t` grid coordinate: the floor of `q / 8`, computed as the
flooring integer division of the numerator by 8 times the denominator so
that the definition evaluates in the kernel. -/
def gridCoord (q : ℚ) : Nat :=
  (q.num.fdiv ((SQUARE_SIZE : Int) * (q.den : Int))).toNat

/-- Environment of `GenerateHash`: the constants `QTPFS_SHARE_PATH_MIN_SIZE`
and `QTPFS_SHARE_PATH_MAX_SIZE` (modelled from the spec: "a minimum shareable
size" and "a maximum shareable size"; their header is not part of src/), the
requesting agent's footprint `md->xsize`, the layer's stable root-identifier
mask, the map dimensions and the movement-class layer index. -/
structure HashEnv where
  shareMinSize : Nat
  shareMaxSize : Nat
  moveDefXSize : Nat
  rootMask : Nat
  mapx : Nat
  mapy : Nat
  layer : Nat

/-- The descent loop of `GenerateHash`, bounded by an explicit step budget
so that the definition is structurally recursive: while the virtual node is
larger than the maximum shareable size, quarter it, pick the quadrant
containing the source grid cell, and fold the quadrant choice into the node
number.  `descendLoop_stable` shows the budget used below always suffices. -/
def descendLoop (maxSize rootMask srcX srcZ : Nat) :
    Nat → Nat → Nat → Nat → Nat → Nat
  | 0, _, _, _, nodeNumber => nodeNumber
  | fuel + 1, nodeSize, xoff, zoff, nodeNumber =>
    if nodeSize > maxSize then
      let half := nodeSize >>> 1
      let isRight := decide (srcX ≥ xoff + half)
      let isDown := decide (srcZ ≥ zoff + half)
      let offset := (if isRight then 1 else 0) + 2 * (if isDown then 1 else 0)
      descendLoop maxSize rootMask srcX srcZ fuel half
        (xoff + if isRight then half else 0)
        (zoff + if isDown then half else 0)
        (GetChildId nodeNumber offset rootMask)
    else nodeNumber

/-- The virtual `srcNodeNumber` after the descent loop of `GenerateHash`. -/
def hashDescend (maxSize rootMask srcX srcZ nodeSize xoff zoff nodeNumber : Nat) :
    Nat :=
  descendLoop maxSize rootMask srcX srcZ nodeSize nodeSize xoff zoff nodeNumber

/-- The sequence of quadrant choices (`isRight`, `isDown`) taken by the
descent loop of `GenerateHash` for a given source grid cell, with the same
step budget as `descendLoop`. -/
def traceLoop (maxSize srcX srcZ : Nat) :
    Nat → Nat → Nat → Nat → List (Bool × Bool)
  | 0, _, _, _ => []
  | fuel + 1, nodeSize, xoff, zoff =>
    if nodeSize > maxSize then
      let half := nodeSize >>> 1
      let isRight := decide (srcX ≥ xoff + half)
      let isDown := decide (srcZ ≥ zoff + half)
      (isRight, isDown) ::
        traceLoop maxSize srcX srcZ fuel half
          (xoff + if isRight then half else 0)
          (zoff + if isDown then half else 0)
    else []

/-- The quadrant trace of a source grid cell through the descent of
`GenerateHash` starting from a node of size `nodeSize`. -/
def quadTrace (maxSize srcX srcZ nodeSize xoff zoff : Nat) :
    List (Bool × Bool) :=
  traceLoop maxSize srcX srcZ nodeSize nodeSize xoff zoff

/-- `GenerateHash2(src, dest)` : pack normalized source, target node number
and layer index into one 64-bit key. -/
def GenerateHash2 (env : HashEnv) (src dest : Nat) : Nat :=
  let N := env.mapx * env.mapy
  (src + dest * N + env.layer * N * N) % U64

/-- `GenerateHash(srcNode, tgtNode)` : the path-sharing key, or `BAD_HASH`
when the request is unshareable. -/
def GenerateHash (env : HashEnv) (rawPathCheck : Bool)
    (srcNode tgtNode : INode) (srcPoint : Float3) : Nat :=
  let nodeSize := srcNode.xsize
  if rawPathCheck then BAD_HASH
  else if nodeSize < env.shareMinSize then BAD_HASH
  else
    let shift := GetNextBitShift env.moveDefXSize
    if nodeSize < 2 ^ shift then BAD_HASH
    else if 2 ^ shift > env.shareMaxSize then BAD_HASH
    else
      let srcX := gridCoord srcPoint.x
      let srcZ := gridCoord srcPoint.z
      GenerateHash2 env
        (hashDescend env.shareMaxSize env.rootMask srcX srcZ
          nodeSize srcNode.xmin srcNode.zmin srcNode.nodeNumber)
        tgtNode.nodeNumber

/-- `tg >= recorded g` where an untouched record's cost is `+infinity`
(`none`): a finite tentative cost is never `>=` infinity. -/
def geOpt (a : ℚ) : Option ℚ → Bool
  | none => false
  | some b => decide (a ≥ b)

/-- `recorded priority < popped priority` for the staleness test of
`IterateNodes`; an infinite recorded priority is not below any popped one. -/
def ltPopped : Option ℚ → ℚ → Bool
  | none, _ => false
  | some f, p => decide (f < p)

/-- `a < b` on optionally-infinite costs (`float` comparison with
`+infinity`): used for the minimum-heuristic bookkeeping. -/
def ltOpt : Option ℚ → Option ℚ → Bool
  | none, _ => false
  | some _, none => true
  | some a, some b => decide (a < b)

/-- Read-only environment of one executed graph search: node lookup by
identifier on the bound layer (`GetPoolNode`), the `float3` distance function
(Euclidean in the engine; an explicit parameter of the embedding), the
heuristic multiplier, `QTPFS_MAX_NETPOINTS_PER_NODE_EDGE`, the finite cost
substituted for fully impassable nodes (`QTPFS_CLOSED_NODE_COST`) and the
literal source point. -/
structure SearchEnv where
  getPoolNode : Int → INode
  dist : Float3 → Float3 → ℚ
  hCostMult : ℚ
  netPointsPerEdge : Nat
  closedNodeCost : ℚ
  srcPoint : Float3

/-- The search type selector of `ExecutePathSearch`. -/
inductive SearchType where
  | astar
  | dijkstra

/-- The heuristic multiplier chosen at the top of `ExecutePathSearch`:
`PATH_SEARCH_ASTAR` uses the reciprocal of the layer's maximum relative
speed modifier, `PATH_SEARCH_DIJKSTRA` uses zero. -/
def computeHCostMult : SearchType → ℚ → ℚ
  | SearchType.astar, maxRelSpeedMod => 1 / maxRelSpeedMod
  | SearchType.dijkstra, _ => 0

/-- Mutable state of one `PathSearch` during `Execute`: the per-worker
registry, the open list, the `curSearchNode` / `minSearchNode` /
`srcSearchNode` / `tgtSearchNode` references (as node identifiers), the two
outcome flags, the degraded-goal flag and the (adjustable) literal target
point. -/
structure SearchState where
  records : SparseData
  openNodes : List (Int × ℚ)
  curIdx : Option Int
  minIdx : Int
  srcIdx : Int
  tgtIdx : Int
  haveFullPath : Bool
  havePartPath : Bool
  badGoal : Bool
  tgtPoint : Float3
deriving DecidableEq

/-- `top()` and `pop()` of the open list: the entry with the smallest
priority is served first (the `std::priority_queue` with `std::greater`);
among equal priorities the embedding serves the earliest-pushed entry, one
of the orders the heap may realize. -/
def popMin : List (Int × ℚ) → Option ((Int × ℚ) × List (Int × ℚ))
  | [] => none
  | e :: rest =>
    match popMin rest with
    | none => some (e, [])
    | some ((bi, bp), rest') =>
      if e.2 ≤ bp then some (e, rest) else some ((bi, bp), e :: rest')

/-- `UpdateNode(nextNode, prevNode, netPointIdx)` : set the predecessor, the
path costs and the chosen crossing point on the neighbour's record.
`SetPathCosts` lives in Node.h outside src/; modelled from the spec: the
record stores "the priority value under which it was last pushed", which
`IterateNodeNeighbors` pushes as `GetHeapPriority()` immediately after
setting costs, so the f-cost is `g + h`. -/
def UpdateNode (records : SparseData) (nextIdx : Int) (prevIdx : Option Int)
    (g h : ℚ) (np : Float2) : SparseData :=
  records.modifyRecord nextIdx fun r =>
    { r with
      prevIdx := prevIdx
    , gCost := some g
    , hCost := some h
    , fCost := some (g + h)
    , netPoint := np }

/-- Candidate crossing point `j` of the edge to neighbour number `i`:
`curNode->GetNeighborEdgeTransitionPoint(1 + i * K + j)`. -/
def candidateNetPoint (curNode : INode) (K i j : Nat) : Float2 :=
  curNode.netPointAt (1 + i * K + j)

/-- The g- and h-cost of candidate crossing point `j` on the edge to
neighbour `i`: incremental literal distance from the current node's crossing
point, weighted by the current node's move cost (substituting the finite
closed-node cost when it is fully impassable), plus — only for the target
node — the neighbour's move cost times the candidate's distance to the
literal target; h is that distance times the heuristic multiplier, zero for
the target. -/
def candidateCosts (env : SearchEnv) (tgtPoint : Float3)
    (curNode nxtNode : INode) (isTarget : Bool) (curPoint : Float3)
    (curG : ℚ) (i j : Nat) : ℚ × ℚ :=
  let np := candidateNetPoint curNode env.netPointsPerEdge i j
  let gDist := env.dist curPoint (float3OfNet np)
  let hDist := env.dist tgtPoint (float3OfNet np)
  let sanitized :=
    if curNode.impassable then env.closedNodeCost else curNode.moveCost
  let g0 := curG + sanitized * gDist
  let g := if isTarget then g0 + nxtNode.moveCost * hDist else g0
  let h := hDist * env.hCostMult * (if isTarget then 0 else 1)
  (g, h)

/-- The selection loop over candidate crossing points: keep the index whose
g+h is strictly smaller than the current best's (ties keep the earlier
index). -/
def selectAux (cands : Nat → ℚ × ℚ) : Nat → Nat → Nat → Nat
  | 0, _, best => best
  | rem + 1, j, best =>
    selectAux cands rem (j + 1)
      (if (cands j).1 + (cands j).2 < (cands best).1 + (cands best).2 then j
       else best)

/-- `netPointIdx` after scanning all `QTPFS_MAX_NETPOINTS_PER_NODE_EDGE`
candidates. -/
def selectNetPointIdx (cands : Nat → ℚ × ℚ) (K : Nat) : Nat :=
  selectAux cands K 0 0

/-- The candidate selected for the edge to neighbour `i`: its (g, h) costs
and its crossing point. -/
def selectedCandidate (env : SearchEnv) (tgtPoint : Float3)
    (curNode nxtNode : INode) (isTarget : Bool) (curPoint : Float3)
    (curG : ℚ) (i : Nat) : (ℚ × ℚ) × Float2 :=
  let cands :=
    candidateCosts env tgtPoint curNode nxtNode isTarget curPoint curG i
  let bestJ := selectNetPointIdx cands env.netPointsPerEdge
  (cands bestJ, candidateNetPoint curNode env.netPointsPerEdge i bestJ)

/-- One iteration of the neighbour loop of `IterateNodeNeighbors`, for
neighbour number `i` with identifier `nxtId`: insert-or-fetch the record,
select the candidate crossing point minimizing g+h, and relax — the record
is rewritten and a new open-list entry pushed only when the tentative g is
strictly below the recorded g (the skip condition is `gCost >= recorded`);
older queue entries of the neighbour stay in the queue. -/
def relaxNeighbor (env : SearchEnv) (curIdx : Int) (curNode : INode)
    (curPoint : Float3) (i : Nat) (nxtId : Int) (st : SearchState) :
    SearchState :=
  let records1 := (st.records.InsertINodeIfNotPresent nxtId).1
  let isTarget := decide (nxtId = st.tgtIdx)
  let curG := ((records1.get curIdx).gCost).getD 0
  let nxtNode := env.getPoolNode nxtId
  let sel :=
    selectedCandidate env st.tgtPoint curNode nxtNode isTarget curPoint curG i
  let g := sel.1.1
  let h := sel.1.2
  let np := sel.2
  if geOpt g ((records1.get nxtId).gCost) then { st with records := records1 }
  else
    { st with
      records := UpdateNode records1 nxtId (some curIdx) g h np
    , openNodes := st.openNodes ++ [(nxtId, g + h)] }

/-- The neighbour loop of `IterateNodeNeighbors`, from neighbour number `i`
on. -/
def iterateNeighborsFrom (env : SearchEnv) (curIdx : Int) (curNode : INode)
    (curPoint : Float3) : Nat → List Int → SearchState → SearchState
  | _, [], st => st
  | i, n :: ns, st =>
    iterateNeighborsFrom env curIdx curNode curPoint (i + 1) ns
      (relaxNeighbor env curIdx curNode curPoint i n st)

/-- `IterateNodeNeighbors(curNode)` : expand every neighbour of the current
node, measuring from the current node's own chosen crossing point. -/
def IterateNodeNeighbors (env : SearchEnv) (curIdx : Int) (curNode : INode)
    (st : SearchState) : SearchState :=
  iterateNeighborsFrom env curIdx curNode
    (float3OfNet ((st.records.get curIdx).netPoint)) 0 curNode.neighbors st

/-- `IterateNodes()` : pop the lowest-priority entry and remember it as the
current node; stop if it is the target; discard it if its record's heap
priority is strictly below the popped priority; otherwise track the node
with the lowest heuristic cost and expand the neighbours. -/
def IterateNodes (env : SearchEnv) (st : SearchState) : SearchState :=
  match popMin st.openNodes with
  | none => st
  | some ((idx, pr), rest) =>
    let st1 := { st with openNodes := rest, curIdx := some idx }
    if idx = st1.tgtIdx then st1
    else if ltPopped ((st1.records.get idx).fCost) pr then st1
    else
      let st2 :=
        if ltOpt ((st1.records.get idx).hCost)
            ((st1.records.get st1.minIdx).hCost) then
          { st1 with minIdx := idx }
        else st1
      IterateNodeNeighbors env idx (env.getPoolNode idx) st2

/-- `ResetState(srcSearchNode)` followed by `UpdateNode(srcSearchNode,
nullptr, 0)`: reset the queue to the source entry at priority zero and seed
the source record with g = 0, h = dist(source, target) · multiplier and the
literal source point as crossing point. -/
def seedSource (env : SearchEnv) (st : SearchState) : SearchState :=
  { st with
    openNodes := [(st.srcIdx, 0)]
  , records :=
      UpdateNode st.records st.srcIdx none 0
        (env.dist env.srcPoint st.tgtPoint * env.hCostMult)
        ⟨env.srcPoint.x, env.srcPoint.z⟩ }

/-- The `while (!openNodes.empty())` loop of `ExecutePathSearch`, with an
explicit iteration budget standing in for the unbounded `while`: after each
`IterateNodes` the full-path flag records whether the current node is the
target, and on success the queue is drained (`ResetQueue`). -/
def searchLoop (env : SearchEnv) : Nat → SearchState → SearchState
  | 0, st => st
  | fuel + 1, st =>
    if st.openNodes.isEmpty then st
    else
      let st1 := IterateNodes env st
      let full := decide (st1.curIdx = some st1.tgtIdx)
      searchLoop env fuel
        { st1 with
          haveFullPath := full
        , openNodes := if full then [] else st1.openNodes }

/-- `ExecutePathSearch()` : seed, run the main loop, derive the partial-path
flag from the minimum-heuristic node, and on a partial result retarget the
search at that node's centre. -/
def ExecutePathSearch (env : SearchEnv) (fuel : Nat) (st : SearchState) :
    SearchState :=
  let st1 := searchLoop env fuel (seedSource env st)
  let st2 := { st1 with havePartPath := decide (st1.minIdx ≠ st1.srcIdx) }
  if !st2.haveFullPath && st2.havePartPath then
    let minNode := env.getPoolNode st2.minIdx
    { st2 with
      tgtIdx := st2.minIdx
    , tgtPoint :=
        { st2.tgtPoint with
          x := ((minNode.xmid * SQUARE_SIZE : Nat) : ℚ)
        , z := ((minNode.zmid * SQUARE_SIZE : Nat) : ℚ) } }
  else st2

/-- `Execute(searchStateOffset)` : short-circuit when the resolved source
node equals the resolved target node; delegate to the raw straight-line
probe when the raw flag is set (the probe's externally computed outcome is
`rawSearchResult`); otherwise run the graph search. -/
def Execute (env : SearchEnv) (rawPathCheck rawSearchResult : Bool)
    (fuel : Nat) (st0 : SearchState) : SearchState :=
  let st :=
    { st0 with
      haveFullPath := decide (st0.srcIdx = st0.tgtIdx)
    , havePartPath := false }
  if st.haveFullPath then st
  else if rawPathCheck then { st with haveFullPath := rawSearchResult }
  else ExecutePathSearch env fuel st

/-- `InitializeThread(threadData)` : reset the per-worker registry, resolve
the source and target records, and substitute an alternate nearby passable
node for a fully impassable target, flagging the goal as degraded.  The
alternate node is the result of the external `GetNearestNodeInArea` lookup,
passed in as `altTgt` (consulted only when the target is impassable). -/
def InitializeThread (getPoolNode : Int → INode) (cap : Nat)
    (srcNodeIdx tgtNodeIdx : Int) (altTgt : Option Int) (tgtPoint : Float3) :
    SearchState :=
  let resolved :=
    if (getPoolNode tgtNodeIdx).impassable then
      match altTgt with
      | some alt => (alt, true)
      | none => (tgtNodeIdx, false)
    else (tgtNodeIdx, false)
  let records1 := ((SparseData.Reset cap).InsertINode srcNodeIdx).1
  let records2 := (records1.InsertINodeIfNotPresent resolved.1).1
  { records := records2
  , openNodes := []
  , curIdx := none
  , minIdx := srcNodeIdx
  , srcIdx := srcNodeIdx
  , tgtIdx := resolved.1
  , haveFullPath := false
  , havePartPath := false
  , badGoal := resolved.2
  , tgtPoint := tgtPoint }

/-- The trace-back loop of `TracePath`: walk predecessor links from the
target while a predecessor exists and the source is not reached, pushing
each hop's crossing point to the front of the waypoint list unless it equals
the previously examined point (initially the literal target point). -/
def traceWalk (records : SparseData) (srcIdx : Int) :
    Nat → Int → Float3 → List Float3 → List Float3
  | 0, _, _, acc => acc
  | fuel + 1, tmpIdx, prvPoint, acc =>
    match (records.get tmpIdx).prevIdx with
    | none => acc
    | some prvIdx =>
      if tmpIdx = srcIdx then acc
      else
        traceWalk records srcIdx fuel prvIdx
          (float3OfNet (records.get tmpIdx).netPoint)
          (if float3OfNet (records.get tmpIdx).netPoint = prvPoint then acc
           else float3OfNet (records.get tmpIdx).netPoint :: acc)

/-- `TracePath(path)` : the waypoint sequence — the literal source point,
the collected crossing points in source-to-target order, and the literal
target point (just the two literal points when source node equals target
node). -/
def TracePath (records : SparseData) (srcIdx tgtIdx : Int)
    (srcPoint tgtPoint : Float3) (fuel : Nat) : List Float3 :=
  let pts :=
    if srcIdx ≠ tgtIdx then traceWalk records srcIdx fuel tgtIdx tgtPoint []
    else []
  srcPoint :: (pts ++ [tgtPoint])

/-- Route output (`IPath`; Path.h is not part of src/).  Modelled from the
spec: "an ordered sequence of 3D points, the literal source and target
points" (stored as the first and last waypoint), "an axis-aligned bounding
box, and two independent boolean outcomes: full-path-found,
partial-path-found"; `pathId` stands for the remaining per-request metadata
a route object carries. -/
structure IPath where
  points : List Float3
  bbMin : Float3
  bbMax : Float3
  haveFullPath : Bool
  havePartPath : Bool
  pathId : Nat
deriving DecidableEq

/-- `SetSourcePoint(p)` : overwrite waypoint 0. -/
def SetSourcePoint (p : IPath) (pt : Float3) : IPath :=
  { p with points := p.points.set 0 pt }

/-- `SetTargetPoint(p)` : overwrite the last waypoint. -/
def SetTargetPoint (p : IPath) (pt : Float3) : IPath :=
  { p with points := p.points.set (p.points.length - 1) pt }

/-- Componentwise minima of a waypoint list. -/
def pointsLower : List Float3 → Float3 → Float3
  | [], acc => acc
  | p :: ps, acc => pointsLower ps ⟨min acc.x p.x, min acc.y p.y, min acc.z p.z⟩

/-- Componentwise maxima of a waypoint list. -/
def pointsUpper : List Float3 → Float3 → Float3
  | [], acc => acc
  | p :: ps, acc => pointsUpper ps ⟨max acc.x p.x, max acc.y p.y, max acc.z p.z⟩

/-- `SetBoundingBox()` : recompute the axis-aligned bounding box from the
current waypoints (modelled from the spec: the route carries "an
axis-aligned bounding box" of its points). -/
def SetBoundingBox (p : IPath) : IPath :=
  match p.points with
  | [] => { p with bbMin := ⟨0, 0, 0⟩, bbMax := ⟨0, 0, 0⟩ }
  | q :: qs => { p with bbMin := pointsLower qs q, bbMax := pointsUpper qs q }

/-- `Finalize(path)` : trace the path unless the raw probe was used, set the
bounding box, and derive the route's outcome flags — a degraded goal clears
the full-path flag.  (`SmoothPath`, conditionally compiled between tracing
and finalization, only slides interior waypoints and is the identity on
two-point routes; it is not modelled because no claim depends on it.) -/
def Finalize (env : SearchEnv) (st : SearchState) (rawPathCheck : Bool)
    (fuel : Nat) (path : IPath) : IPath :=
  let path1 :=
    if rawPathCheck then path
    else
      { path with
        points :=
          TracePath st.records st.srcIdx st.tgtIdx env.srcPoint st.tgtPoint
            fuel }
  let path2 := SetBoundingBox path1
  { path2 with
    haveFullPath := st.haveFullPath && !st.badGoal
  , havePartPath := st.havePartPath }

/-- `SharedFinalize(srcPath, dstPath)` : copy the cached route's waypoints
into the destination, overwrite the literal source and target points,
recompute the bounding box and set the destination's full-path flag from the
cached route.  (`CopyPoints` is modelled from the spec: "copy its waypoints
verbatim into the new result".) -/
def SharedFinalize (srcPoint tgtPoint : Float3) (srcPath dstPath : IPath) :
    IPath :=
  let d1 := { dstPath with points := srcPath.points }
  let d2 := SetTargetPoint (SetSourcePoint d1 srcPoint) tgtPoint
  let d3 := SetBoundingBox d2
  { d3 with haveFullPath := srcPath.haveFullPath }

/-- Specification-side description of the trace-back walk: the node
identifiers visited (each contributing a crossing point), in walk order
(target first), stopping where a predecessor is missing or the source is
reached. -/
def chainNodes (records : SparseData) (srcIdx : Int) : Nat → Int → List Int
  | 0, _ => []
  | fuel + 1, idx =>
    match (records.get idx).prevIdx with
    | none => []
    | some prvIdx =>
      if idx = srcIdx then []
      else idx :: chainNodes records srcIdx fuel prvIdx

/-- The crossing points collected by the trace-back walk, in walk order. -/
def walkPoints (records : SparseData) (srcIdx : Int) (fuel : Nat)
    (tgtIdx : Int) : List Float3 :=
  (chainNodes records srcIdx fuel tgtIdx).map
    fun idx => float3OfNet (records.get idx).netPoint

/-- Drop from a walk-ordered point list every point equal to the previously
examined one; the first point is compared against `prev` (the literal target
point in `TracePath`). -/
def keepScan (prev : Float3) : List Float3 → List Float3
  | [] => []
  | p :: rest => (if p = prev then [] else [p]) ++ keepScan p rest

/-- Concrete sharing-key environment: minimum shareable size 64, maximum
shareable size 16, agent footprint 3, root mask 0, a 16×16 map, layer 1. -/
def hashEnvShare : HashEnv :=
  { shareMinSize := 64
  , shareMaxSize := 16
  , moveDefXSize := 3
  , rootMask := 0
  , mapx := 16
  , mapy := 16
  , layer := 1 }

/-- The same environment for an agent whose footprint of 100 squares
exceeds the maximum shareable size. -/
def hashEnvBigFoot : HashEnv :=
  { hashEnvShare with moveDefXSize := 100 }

/-- A 64×64 source node with node number 7. -/
def srcNodeShare : INode :=
  { nodeNumber := 7
  , xmin := 0
  , xmax := 64
  , zmin := 0
  , zmax := 64
  , moveCost := 1
  , impassable := false
  , neighbors := []
  , netPointAt := fun _ => ⟨0, 0⟩ }

/-- A target node with node number 3. -/
def tgtNodeShare : INode :=
  { nodeNumber := 3
  , xmin := 128
  , xmax := 144
  , zmin := 0
  , zmax := 16
  , moveCost := 1
  , impassable := false
  , neighbors := []
  , netPointAt := fun _ => ⟨0, 0⟩ }

/-- A source point in the north-west footprint-normalized quadrant of the
64×64 source node. -/
def srcPointA : Float3 := ⟨12, 0, 20⟩

/-- A second, distinct source point in the same footprint-normalized
quadrant. -/
def srcPointB : Float3 := ⟨4, 0, 24⟩

/-- Absolute value on ℚ, written so that it evaluates in the kernel. -/
def qabs (a : ℚ) : ℚ := if a < 0 then -a else a

/-- A concrete distance function used for example runs: the L1 distance on
the x/z plane.  `float3::distance` is Euclidean; on the axis-aligned
configurations of the example graphs below — all points share one z or x
coordinate per measured pair — the two coincide. -/
def distL1 (p q : Float3) : ℚ := qabs (p.x - q.x) + qabs (p.z - q.z)

/-- Example graph, node 0: a cell at the west end of a three-cell corridor;
its single edge (to node 1) has its midpoint crossing point at x = 16. -/
def nodeA : INode :=
  { nodeNumber := 0
  , xmin := 0
  , xmax := 2
  , zmin := 0
  , zmax := 2
  , moveCost := 1
  , impassable := false
  , neighbors := [1]
  , netPointAt := fun _ => ⟨16, 0⟩ }

/-- Example graph, node 1: the middle cell; edge 0 (to node 0) crosses at
x = 16, edge 1 (to node 2) crosses at x = 32. -/
def nodeB : INode :=
  { nodeNumber := 1
  , xmin := 2
  , xmax := 4
  , zmin := 0
  , zmax := 2
  , moveCost := 1
  , impassable := false
  , neighbors := [0, 2]
  , netPointAt := fun n => if n = 1 then ⟨16, 0⟩ else ⟨32, 0⟩ }

/-- Example graph, node 2: the east cell, the search target. -/
def nodeC : INode :=
  { nodeNumber := 2
  , xmin := 4
  , xmax := 6
  , zmin := 0
  , zmax := 2
  , moveCost := 1
  , impassable := false
  , neighbors := [1]
  , netPointAt := fun _ => ⟨32, 0⟩ }

/-- Node lookup of the three-cell corridor. -/
def chainPool : Int → INode :=
  fun i => if i = 0 then nodeA else if i = 1 then nodeB else nodeC

/-- Search environment over the corridor: A* with heuristic multiplier 1
(maximum relative speed modifier 1), one crossing point per edge, source at
the west end. -/
def envC1 : SearchEnv :=
  { getPoolNode := chainPool
  , dist := distL1
  , hCostMult := 1
  , netPointsPerEdge := 1
  , closedNodeCost := 100
  , srcPoint := ⟨0, 0, 0⟩ }

/-- Thread-bound state of the corridor request: source node 0, target node
2 (passable, no substitution), literal target point x = 32. -/
def stC1 : SearchState := InitializeThread chainPool 8 0 2 none ⟨32, 0, 0⟩

/-- The executed corridor search. -/
def runC1 : SearchState := Execute envC1 false false 10 stC1

/-- A freshly allocated two-point route object. -/
def pathInit : IPath :=
  { points := [⟨0, 0, 0⟩, ⟨0, 0, 0⟩]
  , bbMin := ⟨0, 0, 0⟩
  , bbMax := ⟨0, 0, 0⟩
  , haveFullPath := false
  , havePartPath := false
  , pathId := 0 }

/-- Node 10 of the staleness example: one neighbour (node 11), crossing
point at x = 3. -/
def node10 : INode :=
  { nodeNumber := 10
  , xmin := 0
  , xmax := 2
  , zmin := 0
  , zmax := 2
  , moveCost := 1
  , impassable := false
  , neighbors := [11]
  , netPointAt := fun _ => ⟨3, 0⟩ }

/-- Node 11 of the staleness example. -/
def node11 : INode :=
  { nodeNumber := 11
  , xmin := 2
  , xmax := 4
  , zmin := 0
  , zmax := 2
  , moveCost := 1
  , impassable := false
  , neighbors := [10]
  , netPointAt := fun _ => ⟨3, 0⟩ }

/-- Node lookup of the staleness example. -/
def poolC3 : Int → INode := fun i => if i = 10 then node10 else node11

/-- Environment of the staleness example: target point at x = 40. -/
def envC3 : SearchEnv :=
  { getPoolNode := poolC3
  , dist := distL1
  , hCostMult := 1
  , netPointsPerEdge := 1
  , closedNodeCost := 100
  , srcPoint := ⟨0, 0, 0⟩ }

/-- Registry holding one record for node 10 with g = 5, h = 20, so its heap
priority is 25 — the shape left behind when a relaxation from elsewhere
lowered g from 11 - h while raising g + h above the previously pushed
priority 11. -/
def recordsC3 : SparseData :=
  UpdateNode ((SparseData.Reset 12).InsertINodeIfNotPresent 10).1 10 none 5 20
    ⟨0, 0⟩

/-- State of the staleness example: the open list still holds the earlier
entry (10, 11) whose priority no longer matches the record's priority 25;
the target is node 99. -/
def stC3 : SearchState :=
  { records := recordsC3
  , openNodes := [(10, 11)]
  , curIdx := none
  , minIdx := 10
  , srcIdx := 10
  , tgtIdx := 99
  , haveFullPath := false
  , havePartPath := false
  , badGoal := false
  , tgtPoint := ⟨40, 0, 0⟩ }

/-- The same state with a genuinely stale entry: the record's priority 25
is strictly below the pushed priority 30. -/
def stC3stale : SearchState := { stC3 with openNodes := [(10, 30)] }

/-- A fully impassable node (number 5) for the degraded-goal examples. -/
def nodeImp : INode :=
  { nodeNumber := 5
  , xmin := 0
  , xmax := 2
  , zmin := 2
  , zmax := 4
  , moveCost := 1
  , impassable := true
  , neighbors := []
  , netPointAt := fun _ => ⟨0, 0⟩ }

/-- Node lookup of the degraded-goal example: node 5 is impassable, every
other identifier resolves to the passable west cell. -/
def poolC4 : Int → INode := fun i => if i = 5 then nodeImp else nodeA

/-- Environment of the degraded-goal example. -/
def envC4 : SearchEnv := { envC1 with getPoolNode := poolC4 }

/-- Thread binding of a request whose literal target node 5 is impassable;
the external nearest-node lookup returns the source node 0, so the resolved
target equals the source and the goal is degraded. -/
def stC4 : SearchState := InitializeThread poolC4 8 0 5 (some 0) ⟨9, 0, 0⟩

/-- The executed degraded-goal request. -/
def runC4 : SearchState := Execute envC4 false false 10 stC4

/-- Thread binding of a trivial request with a passable target: source node
and target node are both node 0. -/
def stC4w : SearchState := InitializeThread chainPool 8 0 0 none ⟨5, 0, 0⟩

/-- A cached route with a partial-path result. -/
def srcPathC9 : IPath :=
  { points := [⟨0, 0, 0⟩, ⟨8, 0, 8⟩, ⟨16, 0, 16⟩]
  , bbMin := ⟨0, 0, 0⟩
  , bbMax := ⟨16, 0, 16⟩
  , haveFullPath := false
  , havePartPath := true
  , pathId := 1 }

/-- A freshly allocated destination route about to reuse the cached one. -/
def dstPathC9 : IPath :=
  { points := [⟨1, 0, 1⟩, ⟨2, 0, 2⟩]
  , bbMin := ⟨0, 0, 0⟩
  , bbMax := ⟨0, 0, 0⟩
  , haveFullPath := false
  , havePartPath := false
  , pathId := 2 }

/-- Any step budget of at least `n` computes the same value: the loop halves
`n` each iteration, so it runs at most `n` times. -/
theorem bitShiftFuel_stable :
    ∀ fuel fuel' n c, n ≤ fuel → n ≤ fuel' →
      bitShiftFuel fuel n c = bitShiftFuel fuel' n c := by
  intro fuel
  induction fuel with
  | zero =>
    intro fuel' n c hn _
    interval_cases n
    cases fuel' <;> simp [bitShiftFuel]
  | succ fuel ih =>
    intro fuel' n c hn hn'
    cases fuel' with
    | zero =>
      interval_cases n
      simp [bitShiftFuel]
    | succ fuel' =>
      by_cases h : n >>> 1 = 0
      · simp [bitShiftFuel, h]
      · have hn0 : n ≠ 0 := by
          intro h0
          simp [h0] at h
        have hlt : n >>> 1 < n := by
          calc n >>> 1 = n / 2 := by simp [Nat.shiftRight_eq_div_pow]
            _ < n := Nat.div_lt_self (Nat.pos_of_ne_zero hn0) (by norm_num)
        have h1 : n >>> 1 ≤ fuel := Nat.le_of_lt_succ (Nat.lt_of_lt_of_le hlt hn)
        have h2 : n >>> 1 ≤ fuel' := Nat.le_of_lt_succ (Nat.lt_of_lt_of_le hlt hn')
        simp only [bitShiftFuel, h, if_neg]
        exact ih fuel' (n >>> 1) (c <<< 1) h1 h2
/-- `c = c << 1` starting from `c = 0` keeps `c` at zero, so the loop of
`GetNextBitShift` never changes its accumulator. -/
theorem bitShiftFuel_zero (fuel : Nat) : ∀ n, bitShiftFuel fuel n 0 = 0 := by
  induction fuel with
  | zero => intro n; simp [bitShiftFuel]
  | succ fuel ih =>
    intro n
    by_cases h : n >>> 1 = 0 <;> simp [bitShiftFuel, h, Nat.shiftLeft_eq, ih]
/-- `GetNextBitShift` returns 1 for every input: the accumulator is never
incremented, contradicting the function's own documentation comment. -/
theorem getNextBitShift_eq_one (n : Nat) : GetNextBitShift n = 1 := by
  unfold GetNextBitShift
  rw [bitShiftFuel_zero]
/-- Any step budget of at least `nodeSize` computes the same value: the node
size halves every iteration, so the loop runs at most `nodeSize` times. -/
theorem descendLoop_stable (maxSize rootMask srcX srcZ : Nat) :
    ∀ fuel fuel' nodeSize xoff zoff nn, nodeSize ≤ fuel → nodeSize ≤ fuel' →
      descendLoop maxSize rootMask srcX srcZ fuel nodeSize xoff zoff nn =
        descendLoop maxSize rootMask srcX srcZ fuel' nodeSize xoff zoff nn := by
  intro fuel
  induction fuel with
  | zero =>
    intro fuel' nodeSize xoff zoff nn hn _
    interval_cases nodeSize
    cases fuel' <;> simp [descendLoop]
  | succ fuel ih =>
    intro fuel' nodeSize xoff zoff nn hn hn'
    cases fuel' with
    | zero =>
      interval_cases nodeSize
      simp [descendLoop]
    | succ fuel' =>
      by_cases h : nodeSize > maxSize
      · have hpos : 0 < nodeSize := Nat.lt_of_le_of_lt (Nat.zero_le _) h
        have hlt : nodeSize >>> 1 < nodeSize := by
          calc nodeSize >>> 1 = nodeSize / 2 := by
                simp [Nat.shiftRight_eq_div_pow]
            _ < nodeSize := Nat.div_lt_self hpos (by norm_num)
        have h1 : nodeSize >>> 1 ≤ fuel :=
          Nat.le_of_lt_succ (Nat.lt_of_lt_of_le hlt hn)
        have h2 : nodeSize >>> 1 ≤ fuel' :=
          Nat.le_of_lt_succ (Nat.lt_of_lt_of_le hlt hn')
        simp only [descendLoop, if_pos h]
        exact ih fuel' _ _ _ _ h1 h2
      · simp [descendLoop, h]
/-- Two source cells with the same quadrant trace produce the same virtual
source node number in the descent loop. -/
theorem descendLoop_congr (maxSize rootMask x1 z1 x2 z2 : Nat) :
    ∀ fuel nodeSize xoff zoff nn,
      traceLoop maxSize x1 z1 fuel nodeSize xoff zoff =
        traceLoop maxSize x2 z2 fuel nodeSize xoff zoff →
      descendLoop maxSize rootMask x1 z1 fuel nodeSize xoff zoff nn =
        descendLoop maxSize rootMask x2 z2 fuel nodeSize xoff zoff nn := by
  intro fuel
  induction fuel with
  | zero => intro nodeSize xoff zoff nn _; simp [descendLoop]
  | succ fuel ih =>
    intro nodeSize xoff zoff nn htr
    by_cases h : nodeSize > maxSize
    · simp only [traceLoop, if_pos h, List.cons.injEq, Prod.mk.injEq] at htr
      obtain ⟨⟨hr, hd⟩, htl⟩ := htr
      simp only [descendLoop, if_pos h]
      rw [hr, hd]
      rw [hr, hd] at htl
      exact ih _ _ _ _ htl
    · simp [descendLoop, h]

/-- C5: `GenerateHash` is claimed to return the unshareable sentinel
`BAD_HASH` whenever the requesting agent's footprint, rounded up to the next
power-of-two bucket, exceeds the maximum shareable size.  It does not: the
rounding helper `GetNextBitShift` returns 1 on every input (its accumulator
is shifted instead of incremented), so the bucket is always `2` and a
footprint of 100 squares — far above the maximum shareable size 16 — still
produces a shareable key (66421) instead of the sentinel. -/
theorem C5_large_footprint_still_shareable :
    GetNextBitShift 100 = 1 ∧
    hashEnvBigFoot.moveDefXSize > hashEnvBigFoot.shareMaxSize ∧
    GenerateHash hashEnvBigFoot false srcNodeShare tgtNodeShare srcPointA =
      66421 ∧
    GenerateHash hashEnvBigFoot false srcNodeShare tgtNodeShare srcPointA ≠
      BAD_HASH := by
  refine ⟨getNextBitShift_eq_one 100, by decide, by decide, by decide⟩

/-- C6: two shareable requests on the same movement-class layer with the
same target node whose source points produce the same quadrant trace through
the footprint-normalized descent yield identical 64-bit sharing keys, each
equal to the normalized source node number plus the target node number times
the map area plus the layer index times the map area squared (in 64-bit
arithmetic). -/
theorem C6_sharing_key_stable (env : HashEnv) (srcNode tgtNode : INode)
    (p1 p2 : Float3)
    (hmin : ¬ srcNode.xsize < env.shareMinSize)
    (hsz : ¬ srcNode.xsize < 2 ^ GetNextBitShift env.moveDefXSize)
    (hmax : ¬ 2 ^ GetNextBitShift env.moveDefXSize > env.shareMaxSize)
    (htr : quadTrace env.shareMaxSize (gridCoord p1.x) (gridCoord p1.z)
        srcNode.xsize srcNode.xmin srcNode.zmin =
      quadTrace env.shareMaxSize (gridCoord p2.x) (gridCoord p2.z)
        srcNode.xsize srcNode.xmin srcNode.zmin) :
    GenerateHash env false srcNode tgtNode p1 =
      GenerateHash env false srcNode tgtNode p2 ∧
    GenerateHash env false srcNode tgtNode p1 =
      (hashDescend env.shareMaxSize env.rootMask (gridCoord p1.x)
          (gridCoord p1.z) srcNode.xsize srcNode.xmin srcNode.zmin
          srcNode.nodeNumber +
        tgtNode.nodeNumber * (env.mapx * env.mapy) +
        env.layer * (env.mapx * env.mapy) * (env.mapx * env.mapy)) % U64 := by
  have hd :
      hashDescend env.shareMaxSize env.rootMask (gridCoord p1.x)
        (gridCoord p1.z) srcNode.xsize srcNode.xmin srcNode.zmin
        srcNode.nodeNumber =
      hashDescend env.shareMaxSize env.rootMask (gridCoord p2.x)
        (gridCoord p2.z) srcNode.xsize srcNode.xmin srcNode.zmin
        srcNode.nodeNumber :=
    descendLoop_congr env.shareMaxSize env.rootMask (gridCoord p1.x)
      (gridCoord p1.z) (gridCoord p2.x) (gridCoord p2.z) srcNode.xsize
      srcNode.xsize srcNode.xmin srcNode.zmin srcNode.nodeNumber htr
  constructor
  · simp only [GenerateHash, if_neg hmin, if_neg hsz, if_neg hmax]
    rw [hd]
  · simp only [GenerateHash, GenerateHash2, if_neg hmin, if_neg hsz,
      if_neg hmax, Bool.false_eq_true, if_false]

/-- Witness for C6: two concrete source points in the same quadrant of a
64×64 source node yield the same key, equal to the packed formula. -/
theorem C6_sharing_key_stable_witness :
    (¬ srcNodeShare.xsize < hashEnvShare.shareMinSize) ∧
    (¬ srcNodeShare.xsize < 2 ^ GetNextBitShift hashEnvShare.moveDefXSize) ∧
    (¬ 2 ^ GetNextBitShift hashEnvShare.moveDefXSize >
        hashEnvShare.shareMaxSize) ∧
    (quadTrace hashEnvShare.shareMaxSize (gridCoord srcPointA.x)
        (gridCoord srcPointA.z) srcNodeShare.xsize srcNodeShare.xmin
        srcNodeShare.zmin =
      quadTrace hashEnvShare.shareMaxSize (gridCoord srcPointB.x)
        (gridCoord srcPointB.z) srcNodeShare.xsize srcNodeShare.xmin
        srcNodeShare.zmin) ∧
    (GenerateHash hashEnvShare false srcNodeShare tgtNodeShare srcPointA =
      GenerateHash hashEnvShare false srcNodeShare tgtNodeShare srcPointB ∧
    GenerateHash hashEnvShare false srcNodeShare tgtNodeShare srcPointA =
      (hashDescend hashEnvShare.shareMaxSize hashEnvShare.rootMask
          (gridCoord srcPointA.x) (gridCoord srcPointA.z) srcNodeShare.xsize
          srcNodeShare.xmin srcNodeShare.zmin srcNodeShare.nodeNumber +
        tgtNodeShare.nodeNumber * (hashEnvShare.mapx * hashEnvShare.mapy) +
        hashEnvShare.layer * (hashEnvShare.mapx * hashEnvShare.mapy) *
          (hashEnvShare.mapx * hashEnvShare.mapy)) % U64) :=
  ⟨by decide, by decide, by decide, by decide,
    C6_sharing_key_stable hashEnvShare srcNodeShare tgtNodeShare srcPointA
      srcPointB (by decide) (by decide) (by decide) (by decide)⟩

/-- C7: after `Reset(capacity)` the index table maps every identifier to the
unset sentinel 0 and the backing store is exactly the one permanent dummy
record at slot 0; insert-or-fetch returns slot 0 for any negative
identifier, allocates a fresh backing slot on the first touch of a
non-negative identifier, and returns the existing slot (with the store
untouched) on every subsequent touch. -/
theorem C7_sparse_registry (cap : Nat) (idn idp : Int) (sd : SparseData)
    (hneg : idn < 0) (hpos : 0 ≤ idp)
    (hunset : sd.sparseIndex.getD idp.toNat 0 = 0)
    (hcap : idp.toNat < sd.sparseIndex.length) (hne : sd.denseData ≠ []) :
    ((∀ i : Nat, (SparseData.Reset cap).sparseIndex.getD i 0 = 0) ∧
      (SparseData.Reset cap).denseData = [dummyNode]) ∧
    sd.InsertINodeIfNotPresent idn = (sd, 0) ∧
    ((sd.InsertINodeIfNotPresent idp).1.denseData =
        sd.denseData ++ [freshNode idp] ∧
      (sd.InsertINodeIfNotPresent idp).2 = sd.denseData.length ∧
      ((sd.InsertINodeIfNotPresent idp).1.InsertINodeIfNotPresent idp) =
        ((sd.InsertINodeIfNotPresent idp).1, sd.denseData.length)) := by
  have hnotneg : ¬ idp < 0 := not_lt.mpr hpos
  have hlen : sd.denseData.length ≠ 0 := by
    simpa [List.length_eq_zero] using hne
  have hunset' : sd.sparseIndex[idp.toNat]?.getD 0 = 0 := by
    simpa [List.getD] using hunset
  have hset : (sd.sparseIndex.set idp.toNat
      sd.denseData.length)[idp.toNat]?.getD 0 = sd.denseData.length := by
    simp [List.getElem?_set_eq_of_lt _ hcap]
  refine ⟨⟨?_, rfl⟩, ?_, ?_, ?_, ?_⟩
  · intro i
    by_cases h : i < cap <;>
      simp [SparseData.Reset, List.getD, List.getElem?_replicate, h]
  · simp [SparseData.InsertINodeIfNotPresent, hneg]
  · simp [SparseData.InsertINodeIfNotPresent, hnotneg, hunset',
      SparseData.InsertAtIndex, List.getD]
  · simp [SparseData.InsertINodeIfNotPresent, hnotneg, hunset',
      SparseData.InsertAtIndex, List.getD, hset]
  · simp [SparseData.InsertINodeIfNotPresent, hnotneg, hunset',
      SparseData.InsertAtIndex, List.getD, hset, hlen]

/-- Witness for C7: the registry behaviour at capacity 4 for the negative
identifier -1 and the fresh identifier 2 on a freshly reset store. -/
theorem C7_sparse_registry_witness :
    ((-1 : Int) < 0 ∧ (0 : Int) ≤ 2 ∧
      (SparseData.Reset 4).sparseIndex.getD (Int.toNat 2) 0 = 0 ∧
      Int.toNat 2 < (SparseData.Reset 4).sparseIndex.length ∧
      (SparseData.Reset 4).denseData ≠ []) ∧
    (((∀ i : Nat, (SparseData.Reset 4).sparseIndex.getD i 0 = 0) ∧
      (SparseData.Reset 4).denseData = [dummyNode]) ∧
    (SparseData.Reset 4).InsertINodeIfNotPresent (-1) =
      (SparseData.Reset 4, 0) ∧
    (((SparseData.Reset 4).InsertINodeIfNotPresent 2).1.denseData =
        (SparseData.Reset 4).denseData ++ [freshNode 2] ∧
      ((SparseData.Reset 4).InsertINodeIfNotPresent 2).2 =
        (SparseData.Reset 4).denseData.length ∧
      (((SparseData.Reset 4).InsertINodeIfNotPresent
            2).1.InsertINodeIfNotPresent 2) =
        (((SparseData.Reset 4).InsertINodeIfNotPresent 2).1,
          (SparseData.Reset 4).denseData.length))) :=
  ⟨⟨by decide, by decide, by decide, by decide, by decide⟩,
    C7_sparse_registry 4 (-1) 2 (SparseData.Reset 4) (by decide) (by decide)
      (by decide) (by decide) (by decide)⟩

/-- The thread-bound corridor state, evaluated to a literal. -/
theorem c1init :
    stC1 =
      { records :=
          ⟨[1, 0, 2, 0, 0, 0, 0, 0], [dummyNode, freshNode 0, freshNode 2]⟩
      , openNodes := []
      , curIdx := none
      , minIdx := 0
      , srcIdx := 0
      , tgtIdx := 2
      , haveFullPath := false
      , havePartPath := false
      , badGoal := false
      , tgtPoint := ⟨32, 0, 0⟩ } := by
  decide

/-- Seeding the corridor search: the source record gets g = 0, h = 32 and
the source point, and the open list holds (0, 0). -/
theorem c1seed :
    seedSource envC1
      { records :=
          ⟨[1, 0, 2, 0, 0, 0, 0, 0], [dummyNode, freshNode 0, freshNode 2]⟩
      , openNodes := []
      , curIdx := none
      , minIdx := 0
      , srcIdx := 0
      , tgtIdx := 2
      , haveFullPath := false
      , havePartPath := false
      , badGoal := false
      , tgtPoint := ⟨32, 0, 0⟩ } =
      { records :=
          ⟨[1, 0, 2, 0, 0, 0, 0, 0],
            [dummyNode, ⟨0, some 0, some 32, some 32, none, ⟨0, 0⟩⟩,
              freshNode 2]⟩
      , openNodes := [(0, 0)]
      , curIdx := none
      , minIdx := 0
      , srcIdx := 0
      , tgtIdx := 2
      , haveFullPath := false
      , havePartPath := false
      , badGoal := false
      , tgtPoint := ⟨32, 0, 0⟩ } := by
  norm_num [seedSource, UpdateNode, SparseData.modifyRecord, SparseData.get,
    List.getD, envC1, distL1, qabs, dummyNode, freshNode]

/-- First main-loop iteration: the source is popped and its neighbour (node
1) is relaxed to g = 16, h = 16 and pushed at priority 32. -/
theorem c1iter1 :
    IterateNodes envC1
      { records :=
          ⟨[1, 0, 2, 0, 0, 0, 0, 0],
            [dummyNode, ⟨0, some 0, some 32, some 32, none, ⟨0, 0⟩⟩,
              freshNode 2]⟩
      , openNodes := [(0, 0)]
      , curIdx := none
      , minIdx := 0
      , srcIdx := 0
      , tgtIdx := 2
      , haveFullPath := false
      , havePartPath := false
      , badGoal := false
      , tgtPoint := ⟨32, 0, 0⟩ } =
      { records :=
          ⟨[1, 3, 2, 0, 0, 0, 0, 0],
            [dummyNode, ⟨0, some 0, some 32, some 32, none, ⟨0, 0⟩⟩,
              freshNode 2, ⟨1, some 16, some 16, some 32, some 0, ⟨16, 0⟩⟩]⟩
      , openNodes := [(1, 32)]
      , curIdx := some 0
      , minIdx := 0
      , srcIdx := 0
      , tgtIdx := 2
      , haveFullPath := false
      , havePartPath := false
      , badGoal := false
      , tgtPoint := ⟨32, 0, 0⟩ } := by
  have ht2 : (2 : Int).toNat = 2 := rfl
  have ht1 : (1 : Int).toNat = 1 := rfl
  have ht0 : (0 : Int).toNat = 0 := rfl
  norm_num [IterateNodes, popMin, ltPopped, ltOpt, IterateNodeNeighbors,
    iterateNeighborsFrom, relaxNeighbor, selectedCandidate, selectNetPointIdx,
    selectAux, candidateCosts, candidateNetPoint, geOpt, UpdateNode,
    SparseData.modifyRecord, SparseData.get, SparseData.InsertINodeIfNotPresent,
    SparseData.InsertAtIndex, List.getD, envC1, chainPool, nodeA, nodeB,
    nodeC, distL1, qabs, float3OfNet, dummyNode, freshNode, ht2, ht1, ht0]

/-- Second iteration: node 1 is popped, becomes the minimum-heuristic node
(h = 16 < 32), fails to improve the source, and relaxes the target (node 2)
to g = 32, h = 0 at priority 32. -/
theorem c1iter2 :
    IterateNodes envC1
      { records :=
          ⟨[1, 3, 2, 0, 0, 0, 0, 0],
            [dummyNode, ⟨0, some 0, some 32, some 32, none, ⟨0, 0⟩⟩,
              freshNode 2, ⟨1, some 16, some 16, some 32, some 0, ⟨16, 0⟩⟩]⟩
      , openNodes := [(1, 32)]
      , curIdx := some 0
      , minIdx := 0
      , srcIdx := 0
      , tgtIdx := 2
      , haveFullPath := false
      , havePartPath := false
      , badGoal := false
      , tgtPoint := ⟨32, 0, 0⟩ } =
      { records :=
          ⟨[1, 3, 2, 0, 0, 0, 0, 0],
            [dummyNode, ⟨0, some 0, some 32, some 32, none, ⟨0, 0⟩⟩,
              ⟨2, some 32, some 0, some 32, some 1, ⟨32, 0⟩⟩,
              ⟨1, some 16, some 16, some 32, some 0, ⟨16, 0⟩⟩]⟩
      , openNodes := [(2, 32)]
      , curIdx := some 1
      , minIdx := 1
      , srcIdx := 0
      , tgtIdx := 2
      , haveFullPath := false
      , havePartPath := false
      , badGoal := false
      , tgtPoint := ⟨32, 0, 0⟩ } := by
  have ht2 : (2 : Int).toNat = 2 := rfl
  have ht1 : (1 : Int).toNat = 1 := rfl
  have ht0 : (0 : Int).toNat = 0 := rfl
  norm_num [IterateNodes, popMin, ltPopped, ltOpt, IterateNodeNeighbors,
    iterateNeighborsFrom, relaxNeighbor, selectedCandidate, selectNetPointIdx,
    selectAux, candidateCosts, candidateNetPoint, geOpt, UpdateNode,
    SparseData.modifyRecord, SparseData.get, SparseData.InsertINodeIfNotPresent,
    SparseData.InsertAtIndex, List.getD, envC1, chainPool, nodeA, nodeB,
    nodeC, distL1, qabs, float3OfNet, dummyNode, freshNode, ht2, ht1, ht0]

/-- Third iteration: the target is popped and the iteration stops at once. -/
theorem c1iter3 :
    IterateNodes envC1
      { records :=
          ⟨[1, 3, 2, 0, 0, 0, 0, 0],
            [dummyNode, ⟨0, some 0, some 32, some 32, none, ⟨0, 0⟩⟩,
              ⟨2, some 32, some 0, some 32, some 1, ⟨32, 0⟩⟩,
              ⟨1, some 16, some 16, some 32, some 0, ⟨16, 0⟩⟩]⟩
      , openNodes := [(2, 32)]
      , curIdx := some 1
      , minIdx := 1
      , srcIdx := 0
      , tgtIdx := 2
      , haveFullPath := false
      , havePartPath := false
      , badGoal := false
      , tgtPoint := ⟨32, 0, 0⟩ } =
      { records :=
          ⟨[1, 3, 2, 0, 0, 0, 0, 0],
            [dummyNode, ⟨0, some 0, some 32, some 32, none, ⟨0, 0⟩⟩,
              ⟨2, some 32, some 0, some 32, some 1, ⟨32, 0⟩⟩,
              ⟨1, some 16, some 16, some 32, some 0, ⟨16, 0⟩⟩]⟩
      , openNodes := []
      , curIdx := some 2
      , minIdx := 1
      , srcIdx := 0
      , tgtIdx := 2
      , haveFullPath := false
      , havePartPath := false
      , badGoal := false
      , tgtPoint := ⟨32, 0, 0⟩ } := by
  norm_num [IterateNodes, popMin]

/-- The executed corridor search, evaluated: the target was reached
(full-path true) and the minimum-heuristic node (1) differs from the source
(0), so the partial-path flag is also true. -/
theorem c1run :
    runC1 =
      { records :=
          ⟨[1, 3, 2, 0, 0, 0, 0, 0],
            [dummyNode, ⟨0, some 0, some 32, some 32, none, ⟨0, 0⟩⟩,
              ⟨2, some 32, some 0, some 32, some 1, ⟨32, 0⟩⟩,
              ⟨1, some 16, some 16, some 32, some 0, ⟨16, 0⟩⟩]⟩
      , openNodes := []
      , curIdx := some 2
      , minIdx := 1
      , srcIdx := 0
      , tgtIdx := 2
      , haveFullPath := true
      , havePartPath := true
      , badGoal := false
      , tgtPoint := ⟨32, 0, 0⟩ } := by
  norm_num [runC1, Execute, c1init, ExecutePathSearch, searchLoop, c1seed,
    c1iter1, c1iter2, c1iter3, -Prod.mk_zero_zero]

/-- C1: the claim says the finalized full-path and partial-path flags are
never both true.  They are: on the three-cell corridor the search reaches
the target, yet `havePartPath = (minSearchNode != srcSearchNode)` is
computed unconditionally after the loop, and the middle node (heuristic cost
16 < the source's 32) became the minimum-heuristic node, so `Finalize`
publishes full-path = true and partial-path = true on one result. -/
theorem C1_counterexample :
    (Finalize envC1 runC1 false 10 pathInit).haveFullPath = true ∧
    (Finalize envC1 runC1 false 10 pathInit).havePartPath = true := by
  norm_num [Finalize, c1run]

/-- One neighbour-relaxation step only writes the registry and the open
list; every other state component is untouched. -/
theorem relaxNeighbor_frame (env : SearchEnv) (curIdx : Int) (curNode : INode)
    (curPoint : Float3) (i : Nat) (nxtId : Int) (st : SearchState) :
    (relaxNeighbor env curIdx curNode curPoint i nxtId st).curIdx = st.curIdx ∧
    (relaxNeighbor env curIdx curNode curPoint i nxtId st).minIdx = st.minIdx ∧
    (relaxNeighbor env curIdx curNode curPoint i nxtId st).srcIdx = st.srcIdx ∧
    (relaxNeighbor env curIdx curNode curPoint i nxtId st).tgtIdx = st.tgtIdx ∧
    (relaxNeighbor env curIdx curNode curPoint i nxtId st).haveFullPath =
      st.haveFullPath ∧
    (relaxNeighbor env curIdx curNode curPoint i nxtId st).havePartPath =
      st.havePartPath ∧
    (relaxNeighbor env curIdx curNode curPoint i nxtId st).badGoal =
      st.badGoal ∧
    (relaxNeighbor env curIdx curNode curPoint i nxtId st).tgtPoint =
      st.tgtPoint := by
  simp only [relaxNeighbor]
  split <;> refine ⟨?_, ?_, ?_, ?_, ?_, ?_, ?_, ?_⟩ <;> trivial

/-- The whole neighbour loop only writes the registry and the open list. -/
theorem iterateNeighborsFrom_frame (env : SearchEnv) (curIdx : Int)
    (curNode : INode) (curPoint : Float3) :
    ∀ (ns : List Int) (i : Nat) (st : SearchState),
      (iterateNeighborsFrom env curIdx curNode curPoint i ns st).curIdx =
        st.curIdx ∧
      (iterateNeighborsFrom env curIdx curNode curPoint i ns st).minIdx =
        st.minIdx ∧
      (iterateNeighborsFrom env curIdx curNode curPoint i ns st).srcIdx =
        st.srcIdx ∧
      (iterateNeighborsFrom env curIdx curNode curPoint i ns st).tgtIdx =
        st.tgtIdx ∧
      (iterateNeighborsFrom env curIdx curNode curPoint i ns st).haveFullPath =
        st.haveFullPath ∧
      (iterateNeighborsFrom env curIdx curNode curPoint i ns st).havePartPath =
        st.havePartPath ∧
      (iterateNeighborsFrom env curIdx curNode curPoint i ns st).badGoal =
        st.badGoal ∧
      (iterateNeighborsFrom env curIdx curNode curPoint i ns st).tgtPoint =
        st.tgtPoint := by
  intro ns
  induction ns with
  | nil =>
    intro i st
    exact ⟨rfl, rfl, rfl, rfl, rfl, rfl, rfl, rfl⟩
  | cons n ns ih =>
    intro i st
    have h1 := relaxNeighbor_frame env curIdx curNode curPoint i n st
    have h2 := ih (i + 1) (relaxNeighbor env curIdx curNode curPoint i n st)
    simp only [iterateNeighborsFrom]
    exact ⟨h2.1.trans h1.1, h2.2.1.trans h1.2.1, h2.2.2.1.trans h1.2.2.1,
      h2.2.2.2.1.trans h1.2.2.2.1, h2.2.2.2.2.1.trans h1.2.2.2.2.1,
      h2.2.2.2.2.2.1.trans h1.2.2.2.2.2.1,
      h2.2.2.2.2.2.2.1.trans h1.2.2.2.2.2.2.1,
      h2.2.2.2.2.2.2.2.trans h1.2.2.2.2.2.2.2⟩

/-- One main-loop iteration never writes the source or target references
nor any outcome flag. -/
theorem IterateNodes_frame (env : SearchEnv) (st : SearchState) :
    (IterateNodes env st).srcIdx = st.srcIdx ∧
    (IterateNodes env st).tgtIdx = st.tgtIdx ∧
    (IterateNodes env st).haveFullPath = st.haveFullPath ∧
    (IterateNodes env st).havePartPath = st.havePartPath ∧
    (IterateNodes env st).badGoal = st.badGoal ∧
    (IterateNodes env st).tgtPoint = st.tgtPoint := by
  unfold IterateNodes
  cases hpop : popMin st.openNodes with
  | none => exact ⟨rfl, rfl, rfl, rfl, rfl, rfl⟩
  | some e =>
    obtain ⟨⟨idx, pr⟩, rest⟩ := e
    by_cases h1 : idx = st.tgtIdx
    · simp only [h1, if_pos rfl]
      refine ⟨?_, ?_, ?_, ?_, ?_, ?_⟩ <;> trivial
    · simp only [if_neg h1]
      by_cases h2 : ltPopped ((SearchState.records
          { st with openNodes := rest, curIdx := some idx }).get idx).fCost
          pr = true
      · simp only [if_pos h2]
        refine ⟨?_, ?_, ?_, ?_, ?_, ?_⟩ <;> trivial
      · simp only [if_neg h2]
        set stBase : SearchState :=
          { st with openNodes := rest, curIdx := some idx } with hbase
        by_cases h3 : ltOpt ((stBase.records.get idx).hCost)
            ((stBase.records.get stBase.minIdx).hCost) = true
        · simp only [if_pos h3]
          have h4 := iterateNeighborsFrom_frame env idx
            (env.getPoolNode idx)
            (float3OfNet (((SearchState.records
              { stBase with minIdx := idx }).get idx).netPoint))
            (env.getPoolNode idx).neighbors 0 { stBase with minIdx := idx }
          exact ⟨h4.2.2.1, h4.2.2.2.1, h4.2.2.2.2.1, h4.2.2.2.2.2.1,
            h4.2.2.2.2.2.2.1, h4.2.2.2.2.2.2.2⟩
        · simp only [if_neg h3]
          have h4 := iterateNeighborsFrom_frame env idx
            (env.getPoolNode idx)
            (float3OfNet ((stBase.records.get idx).netPoint))
            (env.getPoolNode idx).neighbors 0 stBase
          exact ⟨h4.2.2.1, h4.2.2.2.1, h4.2.2.2.2.1, h4.2.2.2.2.2.1,
            h4.2.2.2.2.2.2.1, h4.2.2.2.2.2.2.2⟩

/-- Through the whole main loop the source and target references and the
partial-path and degraded-goal flags are untouched, and the full-path flag
stays equal to "the current node is the target". -/
theorem searchLoop_flags (env : SearchEnv) :
    ∀ (fuel : Nat) (st : SearchState),
      st.haveFullPath = decide (st.curIdx = some st.tgtIdx) →
      (searchLoop env fuel st).haveFullPath =
        decide ((searchLoop env fuel st).curIdx =
          some (searchLoop env fuel st).tgtIdx) ∧
      (searchLoop env fuel st).srcIdx = st.srcIdx ∧
      (searchLoop env fuel st).tgtIdx = st.tgtIdx ∧
      (searchLoop env fuel st).havePartPath = st.havePartPath ∧
      (searchLoop env fuel st).badGoal = st.badGoal := by
  intro fuel
  induction fuel with
  | zero =>
    intro st hinv
    exact ⟨hinv, rfl, rfl, rfl, rfl⟩
  | succ fuel ih =>
    intro st hinv
    by_cases hq : st.openNodes.isEmpty = true
    · simp only [searchLoop, if_pos hq]
      exact ⟨hinv, by trivial, by trivial, by trivial, by trivial⟩
    · simp only [searchLoop, if_neg hq]
      have hfr := IterateNodes_frame env st
      have hnext := ih
        { IterateNodes env st with
          haveFullPath :=
            decide ((IterateNodes env st).curIdx =
              some (IterateNodes env st).tgtIdx)
        , openNodes :=
            if decide ((IterateNodes env st).curIdx =
                some (IterateNodes env st).tgtIdx) = true then []
            else (IterateNodes env st).openNodes } (by rfl)
      refine ⟨hnext.1, ?_, ?_, ?_, ?_⟩
      · exact hnext.2.1.trans hfr.1
      · exact hnext.2.2.1.trans hfr.2.1
      · exact hnext.2.2.2.1.trans hfr.2.2.2.1
      · exact hnext.2.2.2.2.trans hfr.2.2.2.2.1

/-- C1 (amended): when a graph search completes, the full-path flag equals
"the last node taken from the open list is the target node" and the
partial-path flag equals "the minimum-heuristic node differs from the
source node"; `Finalize` publishes full-path = haveFullPath ∧ ¬degraded and
partial-path = havePartPath independently of each other.  The two flags are
not mutually exclusive (see the counterexample): both are true when the
target was reached after a node with lower heuristic cost than the source
was expanded. -/
theorem C1_flag_semantics (env : SearchEnv) (fuel fuel2 : Nat)
    (st : SearchState) (path : IPath) (raw : Bool)
    (hinv : st.haveFullPath = decide (st.curIdx = some st.tgtIdx)) :
    (ExecutePathSearch env fuel st).haveFullPath =
      decide ((searchLoop env fuel (seedSource env st)).curIdx =
        some (searchLoop env fuel (seedSource env st)).tgtIdx) ∧
    (ExecutePathSearch env fuel st).havePartPath =
      decide ((searchLoop env fuel (seedSource env st)).minIdx ≠ st.srcIdx) ∧
    (Finalize env (ExecutePathSearch env fuel st) raw fuel2 path).haveFullPath =
      ((ExecutePathSearch env fuel st).haveFullPath &&
        !(ExecutePathSearch env fuel st).badGoal) ∧
    (Finalize env (ExecutePathSearch env fuel st) raw fuel2 path).havePartPath =
      (ExecutePathSearch env fuel st).havePartPath := by
  have hseed : (seedSource env st).haveFullPath =
      decide ((seedSource env st).curIdx = some (seedSource env st).tgtIdx) :=
    hinv
  have hL := searchLoop_flags env fuel (seedSource env st) hseed
  have hsrc : (searchLoop env fuel (seedSource env st)).srcIdx = st.srcIdx :=
    hL.2.1
  refine ⟨?_, ?_, by simp [Finalize], by simp [Finalize]⟩
  · simp only [ExecutePathSearch]
    split <;> simpa using hL.1
  · simp only [ExecutePathSearch]
    split <;> simp [hsrc]

/-- Witness for C1: the flag semantics instantiated on the corridor
search. -/
theorem C1_flag_semantics_witness :
    (stC1.haveFullPath = decide (stC1.curIdx = some stC1.tgtIdx)) ∧
    ((ExecutePathSearch envC1 10 stC1).haveFullPath =
      decide ((searchLoop envC1 10 (seedSource envC1 stC1)).curIdx =
        some (searchLoop envC1 10 (seedSource envC1 stC1)).tgtIdx) ∧
    (ExecutePathSearch envC1 10 stC1).havePartPath =
      decide ((searchLoop envC1 10 (seedSource envC1 stC1)).minIdx ≠
        stC1.srcIdx) ∧
    (Finalize envC1 (ExecutePathSearch envC1 10 stC1) false 10
        pathInit).haveFullPath =
      ((ExecutePathSearch envC1 10 stC1).haveFullPath &&
        !(ExecutePathSearch envC1 10 stC1).badGoal) ∧
    (Finalize envC1 (ExecutePathSearch envC1 10 stC1) false 10
        pathInit).havePartPath =
      (ExecutePathSearch envC1 10 stC1).havePartPath) :=
  ⟨by decide, C1_flag_semantics envC1 10 10 stC1 pathInit false (by decide)⟩


/-- Reading a record back through the slot written by `modifyRecord`. -/
theorem SparseData.get_modifyRecord (sd : SparseData) (i : Int)
    (f : SearchNode → SearchNode)
    (hslot : sd.slotOf i < sd.denseData.length) :
    (sd.modifyRecord i f).get i = f (sd.get i) := by
  unfold SparseData.slotOf at hslot
  have hslot' : sd.sparseIndex[i.toNat]?.getD 0 < sd.denseData.length := by
    simpa [List.getD] using hslot
  simp [SparseData.modifyRecord, SparseData.get, List.getD,
    List.getElem?_set_eq_of_lt _ hslot']

/-- C2: during neighbour expansion, with `rcd` the registry after the lazy
insert-or-fetch of the neighbour and `((g, h), np)` its selected candidate
crossing point, the neighbour's record is rewritten and a new open-list
entry pushed exactly when the tentative g is strictly below the recorded g
(`geOpt` false); on acceptance the predecessor becomes the current node, the
costs (f = g + h, the priority later pushed) and the chosen crossing point
are stored, and the new entry is appended with every older entry left in the
queue.  When the tentative g does not improve the recorded g, only the lazy
insert happens and the queue is unchanged. -/
theorem C2_relaxation (env : SearchEnv) (curIdx : Int) (curNode : INode)
    (curPoint : Float3) (i : Nat) (nxtId : Int) (st : SearchState)
    (rcd : SparseData) (g h : ℚ) (np : Float2)
    (hrcd : rcd = (st.records.InsertINodeIfNotPresent nxtId).1)
    (hsel : ((g, h), np) =
      selectedCandidate env st.tgtPoint curNode (env.getPoolNode nxtId)
        (decide (nxtId = st.tgtIdx)) curPoint (((rcd.get curIdx).gCost).getD 0)
        i)
    (hslot : rcd.slotOf nxtId < rcd.denseData.length) :
    (geOpt g ((rcd.get nxtId).gCost) = true →
      relaxNeighbor env curIdx curNode curPoint i nxtId st =
        { st with records := rcd }) ∧
    (geOpt g ((rcd.get nxtId).gCost) = false →
      (relaxNeighbor env curIdx curNode curPoint i nxtId st).records.get
          nxtId =
        { rcd.get nxtId with
          prevIdx := some curIdx
        , gCost := some g
        , hCost := some h
        , fCost := some (g + h)
        , netPoint := np } ∧
      (relaxNeighbor env curIdx curNode curPoint i nxtId st).openNodes =
        st.openNodes ++ [(nxtId, g + h)]) := by
  subst hrcd
  constructor
  · intro hge
    simp only [relaxNeighbor, ← hsel]
    simp [hge]
  · intro hge
    have hupd :
        relaxNeighbor env curIdx curNode curPoint i nxtId st =
          { st with
            records :=
              UpdateNode (st.records.InsertINodeIfNotPresent nxtId).1 nxtId
                (some curIdx) g h np
          , openNodes := st.openNodes ++ [(nxtId, g + h)] } := by
      simp only [relaxNeighbor, ← hsel]
      simp [hge]
    rw [hupd]
    constructor
    · simp only [UpdateNode]
      rw [SparseData.get_modifyRecord _ _ _ hslot]
    · rfl

/-- Witness for C2: relaxing fresh node 11 from node 10 in the staleness
example: tentative g = 8 improves the infinite recorded g, so the record is
written (predecessor 10, g = 8, h = 37, crossing point x = 3) and (11, 45)
is pushed. -/
theorem C2_relaxation_witness :
    ((⟨[0, 0, 0, 0, 0, 0, 0, 0, 0, 0, 1, 2],
        [dummyNode, ⟨10, some 5, some 20, some 25, none, ⟨0, 0⟩⟩,
          freshNode 11]⟩ : SparseData) =
        (stC3.records.InsertINodeIfNotPresent 11).1 ∧
      (((8 : ℚ), (37 : ℚ)), (⟨3, 0⟩ : Float2)) =
        selectedCandidate envC3 stC3.tgtPoint node10 (envC3.getPoolNode 11)
          (decide ((11 : Int) = stC3.tgtIdx)) ⟨0, 0, 0⟩
          ((((⟨[0, 0, 0, 0, 0, 0, 0, 0, 0, 0, 1, 2],
              [dummyNode, ⟨10, some 5, some 20, some 25, none, ⟨0, 0⟩⟩,
                freshNode 11]⟩ : SparseData).get 10).gCost).getD 0) 0 ∧
      (⟨[0, 0, 0, 0, 0, 0, 0, 0, 0, 0, 1, 2],
        [dummyNode, ⟨10, some 5, some 20, some 25, none, ⟨0, 0⟩⟩,
          freshNode 11]⟩ : SparseData).slotOf 11 <
        (⟨[0, 0, 0, 0, 0, 0, 0, 0, 0, 0, 1, 2],
          [dummyNode, ⟨10, some 5, some 20, some 25, none, ⟨0, 0⟩⟩,
            freshNode 11]⟩ : SparseData).denseData.length) ∧
    ((geOpt 8 (((⟨[0, 0, 0, 0, 0, 0, 0, 0, 0, 0, 1, 2],
        [dummyNode, ⟨10, some 5, some 20, some 25, none, ⟨0, 0⟩⟩,
          freshNode 11]⟩ : SparseData).get 11).gCost) = true →
      relaxNeighbor envC3 10 node10 ⟨0, 0, 0⟩ 0 11 stC3 =
        { stC3 with
          records :=
            ⟨[0, 0, 0, 0, 0, 0, 0, 0, 0, 0, 1, 2],
              [dummyNode, ⟨10, some 5, some 20, some 25, none, ⟨0, 0⟩⟩,
                freshNode 11]⟩ }) ∧
    (geOpt 8 (((⟨[0, 0, 0, 0, 0, 0, 0, 0, 0, 0, 1, 2],
        [dummyNode, ⟨10, some 5, some 20, some 25, none, ⟨0, 0⟩⟩,
          freshNode 11]⟩ : SparseData).get 11).gCost) = false →
      (relaxNeighbor envC3 10 node10 ⟨0, 0, 0⟩ 0 11 stC3).records.get 11 =
        { (⟨[0, 0, 0, 0, 0, 0, 0, 0, 0, 0, 1, 2],
            [dummyNode, ⟨10, some 5, some 20, some 25, none, ⟨0, 0⟩⟩,
              freshNode 11]⟩ : SparseData).get 11 with
          prevIdx := some 10
        , gCost := some 8
        , hCost := some 37
        , fCost := some (8 + 37)
        , netPoint := ⟨3, 0⟩ } ∧
      (relaxNeighbor envC3 10 node10 ⟨0, 0, 0⟩ 0 11 stC3).openNodes =
        stC3.openNodes ++ [(11, 8 + 37)])) := by
  have ht10 : (10 : Int).toNat = 10 := rfl
  have ht11 : (11 : Int).toNat = 11 := rfl
  refine ⟨⟨?_, ?_, by decide⟩, ?_⟩
  · norm_num [stC3, recordsC3, UpdateNode, SparseData.modifyRecord,
      SparseData.get, SparseData.InsertINodeIfNotPresent,
      SparseData.InsertAtIndex, SparseData.Reset, List.getD, List.replicate,
      dummyNode, freshNode, ht10, ht11]
  · norm_num [stC3, recordsC3, selectedCandidate, selectNetPointIdx,
      selectAux, candidateCosts, candidateNetPoint, envC3, poolC3, node10,
      node11, distL1, qabs, float3OfNet, SparseData.get, List.getD,
      dummyNode, freshNode, ht10, ht11]
  · refine C2_relaxation envC3 10 node10 ⟨0, 0, 0⟩ 0 11 stC3 _ 8 37 ⟨3, 0⟩
      ?_ ?_ (by decide)
    · norm_num [stC3, recordsC3, UpdateNode, SparseData.modifyRecord,
        SparseData.get, SparseData.InsertINodeIfNotPresent,
        SparseData.InsertAtIndex, SparseData.Reset, List.getD,
        List.replicate, dummyNode, freshNode, ht10, ht11]
    · norm_num [stC3, recordsC3, selectedCandidate, selectNetPointIdx,
        selectAux, candidateCosts, candidateNetPoint, envC3, poolC3, node10,
        node11, distL1, qabs, float3OfNet, SparseData.get,
        SparseData.InsertINodeIfNotPresent, SparseData.InsertAtIndex,
        SparseData.Reset, UpdateNode, SparseData.modifyRecord, List.getD,
        dummyNode, freshNode, ht10, ht11]


/-- C3: the claim says every popped entry whose recorded priority does not
match the popped priority is discarded without expansion.  It is not: in
`stC3` the popped entry (10, 11) mismatches the record's priority 25, yet
because the stale test is `recorded < popped` (25 < 11 fails) the node IS
expanded — its neighbour 11 is relaxed to g = 8 and pushed at priority 45. -/
theorem C3_counterexample :
    (stC3.records.get 10).fCost = some 25 ∧
    popMin stC3.openNodes = some ((10, 11), []) ∧
    ((25 : ℚ) ≠ 11) ∧
    ((IterateNodes envC3 stC3).records.get 11).gCost = some 8 ∧
    (IterateNodes envC3 stC3).openNodes = [(11, 45)] := by
  have ht10 : (10 : Int).toNat = 10 := rfl
  have ht11 : (11 : Int).toNat = 11 := rfl
  refine ⟨?_, ?_, by norm_num, ?_, ?_⟩ <;>
    norm_num [stC3, recordsC3, IterateNodes, popMin, ltPopped, ltOpt,
      IterateNodeNeighbors, iterateNeighborsFrom, relaxNeighbor,
      selectedCandidate, selectNetPointIdx, selectAux, candidateCosts,
      candidateNetPoint, geOpt, UpdateNode, SparseData.modifyRecord,
      SparseData.get, SparseData.InsertINodeIfNotPresent,
      SparseData.InsertAtIndex, SparseData.Reset, List.getD, List.replicate,
      envC3, poolC3, node10, node11, distL1, qabs, float3OfNet, dummyNode,
      freshNode, ht10, ht11]

/-- C3 (amended): a popped non-target entry is discarded — the main loop
just notes the popped node as current, drops the entry and continues, with
no record modified and no neighbour expanded — exactly when the record's
priority is strictly LOWER than the popped priority (the record improved
after this entry was pushed); an entry whose recorded priority is not lower
(matching or exceeding it) is expanded with the record's current data, and a
popped target entry stops the search before the staleness test. -/
theorem C3_stale_entry_discarded (env : SearchEnv) (st : SearchState)
    (idx : Int) (pr : ℚ) (rest : List (Int × ℚ))
    (hpop : popMin st.openNodes = some ((idx, pr), rest))
    (htgt : idx ≠ st.tgtIdx)
    (hstale : ltPopped ((st.records.get idx).fCost) pr = true) :
    IterateNodes env st = { st with openNodes := rest, curIdx := some idx } := by
  unfold IterateNodes
  rw [hpop]
  simp [htgt, hstale]

/-- Witness for C3: popping the genuinely stale entry (10, 30) — the
record's priority 25 is strictly below 30 — discards it without touching
the registry. -/
theorem C3_stale_entry_discarded_witness :
    (popMin stC3stale.openNodes = some ((10, 30), []) ∧
      (10 : Int) ≠ stC3stale.tgtIdx ∧
      ltPopped ((stC3stale.records.get 10).fCost) 30 = true) ∧
    IterateNodes envC3 stC3stale =
      { stC3stale with openNodes := [], curIdx := some 10 } := by
  have ht10 : (10 : Int).toNat = 10 := rfl
  have h1 : popMin stC3stale.openNodes = some ((10, 30), []) := by
    norm_num [stC3stale, stC3, popMin]
  have h2 : (10 : Int) ≠ stC3stale.tgtIdx := by decide
  have h3 : ltPopped ((stC3stale.records.get 10).fCost) 30 = true := by
    norm_num [stC3stale, stC3, recordsC3, ltPopped, UpdateNode,
      SparseData.modifyRecord, SparseData.get,
      SparseData.InsertINodeIfNotPresent, SparseData.InsertAtIndex,
      SparseData.Reset, List.getD, List.replicate, dummyNode, freshNode,
      ht10]
  exact ⟨⟨h1, h2, h3⟩, C3_stale_entry_discarded envC3 stC3stale 10 30 [] h1
    h2 h3⟩

/-- C4: the claim says a request whose resolved source node equals the
resolved target node finalizes with the full-path flag true.  Not when the
equality arises from degraded-goal substitution: binding a request whose
impassable literal target (node 5) is substituted by the source node makes
`srcSearchNode == tgtSearchNode` with `badGoal` set, Execute short-circuits
and sets `haveFullPath`, yet `Finalize` publishes full-path = false (the
two waypoints are still the literal source and target points). -/
theorem C4_counterexample :
    runC4.srcIdx = runC4.tgtIdx ∧
    runC4.haveFullPath = true ∧
    runC4.badGoal = true ∧
    (Finalize envC4 runC4 false 10 pathInit).points =
      [⟨0, 0, 0⟩, ⟨9, 0, 0⟩] ∧
    (Finalize envC4 runC4 false 10 pathInit).haveFullPath = false := by
  refine ⟨by decide, by decide, by decide, ?_, by decide⟩
  norm_num [Finalize, runC4, Execute, stC4, InitializeThread, envC4, poolC4,
    nodeImp, nodeA, TracePath, SetBoundingBox, pathInit, envC1,
    SparseData.Reset, SparseData.InsertINode, SparseData.InsertINodeIfNotPresent,
    SparseData.InsertAtIndex, List.getD, List.replicate, dummyNode, freshNode]

/-- C4 (amended): when the resolved source node equals the resolved target
node, Execute short-circuits — the state is returned untouched except for
the flags (full-path set, partial-path cleared), so the main expansion loop
never runs — and the finalized route is exactly the two literal waypoints;
its full-path flag is true unless the goal was degraded (an impassable
literal target was substituted during thread binding), in which case it is
false; the partial-path flag is false. -/
theorem C4_trivial_path (env : SearchEnv) (raw rawRes : Bool)
    (fuel fuel2 : Nat) (st : SearchState) (path : IPath)
    (heq : st.srcIdx = st.tgtIdx) :
    Execute env raw rawRes fuel st =
      { st with haveFullPath := true, havePartPath := false } ∧
    (Finalize env (Execute env raw rawRes fuel st) false fuel2 path).points =
      [env.srcPoint, st.tgtPoint] ∧
    (Finalize env (Execute env raw rawRes fuel st) false fuel2
        path).haveFullPath = !st.badGoal ∧
    (Finalize env (Execute env raw rawRes fuel st) false fuel2
        path).havePartPath = false := by
  have h1 : Execute env raw rawRes fuel st =
      { st with haveFullPath := true, havePartPath := false } := by
    simp [Execute, heq]
  refine ⟨h1, ?_, ?_, ?_⟩ <;> rw [h1] <;>
    simp [Finalize, TracePath, SetBoundingBox, heq]

/-- Witness for C4: a request bound with source node = target node = 0 and
a passable target: two literal waypoints and full-path = true. -/
theorem C4_trivial_path_witness :
    stC4w.srcIdx = stC4w.tgtIdx ∧
    (Execute envC1 false false 10 stC4w =
      { stC4w with haveFullPath := true, havePartPath := false } ∧
    (Finalize envC1 (Execute envC1 false false 10 stC4w) false 10
        pathInit).points = [envC1.srcPoint, stC4w.tgtPoint] ∧
    (Finalize envC1 (Execute envC1 false false 10 stC4w) false 10
        pathInit).haveFullPath = !stC4w.badGoal ∧
    (Finalize envC1 (Execute envC1 false false 10 stC4w) false 10
        pathInit).havePartPath = false) :=
  ⟨by decide, C4_trivial_path envC1 false false 10 10 stC4w pathInit
    (by decide)⟩


/-- The trace-back loop equals the specification-side scan: collect the
crossing points along the predecessor chain, drop each point equal to the
previously examined one, reverse into source-to-target order, and append
the accumulator. -/
theorem traceWalk_spec (records : SparseData) (srcIdx : Int) :
    ∀ (fuel : Nat) (idx : Int) (prvP : Float3) (acc : List Float3),
      traceWalk records srcIdx fuel idx prvP acc =
        (keepScan prvP (walkPoints records srcIdx fuel idx)).reverse ++ acc := by
  intro fuel
  induction fuel with
  | zero =>
    intro idx prvP acc
    simp [traceWalk, walkPoints, chainNodes, keepScan]
  | succ fuel ih =>
    intro idx prvP acc
    cases hprev : (records.get idx).prevIdx with
    | none => simp [traceWalk, walkPoints, chainNodes, hprev, keepScan]
    | some prvIdx =>
      by_cases hsrc : idx = srcIdx
      · subst hsrc
        simp [traceWalk, walkPoints, chainNodes, hprev, keepScan]
      · simp only [traceWalk, walkPoints, chainNodes, hprev, if_neg hsrc,
          List.map_cons]
        rw [ih]
        by_cases hdup : float3OfNet (records.get idx).netPoint = prvP
        · simp [keepScan, hdup, walkPoints]
        · simp [keepScan, hdup, walkPoints]

/-- The predecessor walk never collects anything when it starts at the
source node. -/
theorem chainNodes_self (records : SparseData) (srcIdx : Int) (fuel : Nat) :
    chainNodes records srcIdx fuel srcIdx = [] := by
  cases fuel with
  | zero => rfl
  | succ fuel =>
    cases hprev : (records.get srcIdx).prevIdx <;>
      simp [chainNodes, hprev]

/-- C8: `TracePath` walks predecessor links from the target node, collects
each hop's chosen crossing point while dropping a point equal to the
previously examined one (the very first collected point is compared against
— and may legitimately coincide with, and is then dropped in favour of —
the literal target point), and produces the literal source point, the kept
crossing points in source-to-target order, then the literal target point;
so the first waypoint is the literal source and the last the literal
target. -/
theorem C8_trace_path (records : SparseData) (srcIdx tgtIdx : Int)
    (srcPoint tgtPoint : Float3) (fuel : Nat) :
    TracePath records srcIdx tgtIdx srcPoint tgtPoint fuel =
      srcPoint ::
        ((keepScan tgtPoint (walkPoints records srcIdx fuel tgtIdx)).reverse
          ++ [tgtPoint]) ∧
    (TracePath records srcIdx tgtIdx srcPoint tgtPoint fuel).head? =
      some srcPoint ∧
    (TracePath records srcIdx tgtIdx srcPoint tgtPoint fuel).getLast? =
      some tgtPoint := by
  have h1 : TracePath records srcIdx tgtIdx srcPoint tgtPoint fuel =
      srcPoint ::
        ((keepScan tgtPoint (walkPoints records srcIdx fuel tgtIdx)).reverse
          ++ [tgtPoint]) := by
    unfold TracePath
    by_cases hne : srcIdx ≠ tgtIdx
    · simp only [if_pos hne]
      rw [traceWalk_spec]
      simp
    · have heq : srcIdx = tgtIdx := not_not.mp hne
      simp only [if_neg hne]
      rw [← heq, walkPoints, chainNodes_self]
      simp [keepScan]
  refine ⟨h1, by rw [h1]; rfl, ?_⟩
  rw [h1]
  rw [show srcPoint ::
      ((keepScan tgtPoint (walkPoints records srcIdx fuel tgtIdx)).reverse ++
        [tgtPoint]) =
      (srcPoint ::
        (keepScan tgtPoint (walkPoints records srcIdx fuel tgtIdx)).reverse) ++
        [tgtPoint] from rfl]
  exact List.getLast?_concat _

/-- Every structural piece of a route other than the bounding box is
untouched by `SetBoundingBox`. -/
theorem SetBoundingBox_frame (p : IPath) :
    (SetBoundingBox p).points = p.points ∧
    (SetBoundingBox p).haveFullPath = p.haveFullPath ∧
    (SetBoundingBox p).havePartPath = p.havePartPath ∧
    (SetBoundingBox p).pathId = p.pathId := by
  unfold SetBoundingBox
  split <;> exact ⟨rfl, rfl, rfl, rfl⟩

/-- Routes with the same waypoints get the same recomputed bounding box. -/
theorem SetBoundingBox_points_congr (p q : IPath) (h : p.points = q.points) :
    (SetBoundingBox p).bbMin = (SetBoundingBox q).bbMin ∧
    (SetBoundingBox p).bbMax = (SetBoundingBox q).bbMax := by
  unfold SetBoundingBox
  rw [h]
  cases hq : q.points <;> simp

/-- C9: the claim says a reused cached route carries BOTH cached flags onto
the new result.  Only the full-path flag is written to the destination
route; `SharedFinalize` never calls `SetHasPartialPath` on `dstPath` (the
cached partial flag is stored only in the search object's member), so the
destination keeps its own partial-path flag: here the cached route has
partial-path = true but the reused result reports false. -/
theorem C9_counterexample :
    srcPathC9.havePartPath = true ∧
    dstPathC9.havePartPath = false ∧
    (SharedFinalize ⟨1, 0, 1⟩ ⟨20, 0, 20⟩ srcPathC9 dstPathC9).havePartPath =
      false := by
  refine ⟨rfl, rfl, ?_⟩
  norm_num [SharedFinalize, SetSourcePoint, SetTargetPoint, SetBoundingBox,
    srcPathC9, dstPathC9]

/-- C9 (amended): reusing a cached route copies its waypoints verbatim into
the destination with only the literal source and target points overwritten,
recomputes the bounding box from those new waypoints, and carries over the
cached route's full-path flag; the destination's partial-path flag and all
its other metadata are left unchanged (the cached partial flag is recorded
only in the search object, not on the destination route). -/
theorem C9_shared_reuse (srcPoint tgtPoint : Float3)
    (srcPath dstPath : IPath) :
    (SharedFinalize srcPoint tgtPoint srcPath dstPath).points =
      (srcPath.points.set 0 srcPoint).set (srcPath.points.length - 1)
        tgtPoint ∧
    (SharedFinalize srcPoint tgtPoint srcPath dstPath).haveFullPath =
      srcPath.haveFullPath ∧
    (SharedFinalize srcPoint tgtPoint srcPath dstPath).havePartPath =
      dstPath.havePartPath ∧
    (SharedFinalize srcPoint tgtPoint srcPath dstPath).pathId =
      dstPath.pathId ∧
    (SharedFinalize srcPoint tgtPoint srcPath dstPath).bbMin =
      (SetBoundingBox
        { dstPath with
          points := (srcPath.points.set 0 srcPoint).set
            (srcPath.points.length - 1) tgtPoint }).bbMin ∧
    (SharedFinalize srcPoint tgtPoint srcPath dstPath).bbMax =
      (SetBoundingBox
        { dstPath with
          points := (srcPath.points.set 0 srcPoint).set
            (srcPath.points.length - 1) tgtPoint }).bbMax := by
  have hpts :
      (SetTargetPoint (SetSourcePoint { dstPath with points := srcPath.points }
        srcPoint) tgtPoint).points =
      (srcPath.points.set 0 srcPoint).set (srcPath.points.length - 1)
        tgtPoint := by
    simp [SetSourcePoint, SetTargetPoint]
  have hbb := SetBoundingBox_frame
    (SetTargetPoint (SetSourcePoint { dstPath with points := srcPath.points }
      srcPoint) tgtPoint)
  have hc := SetBoundingBox_points_congr
    (SetTargetPoint (SetSourcePoint { dstPath with points := srcPath.points }
      srcPoint) tgtPoint)
    { dstPath with
      points := (srcPath.points.set 0 srcPoint).set
        (srcPath.points.length - 1) tgtPoint } (by simpa using hpts)
  refine ⟨?_, ?_, ?_, ?_, ?_, ?_⟩
  · simpa [SharedFinalize, hpts] using hbb.1.trans hpts
  · simp [SharedFinalize]
  · simpa [SharedFinalize, SetSourcePoint, SetTargetPoint] using hbb.2.2.1
  · simpa [SharedFinalize, SetSourcePoint, SetTargetPoint] using hbb.2.2.2
  · simpa [SharedFinalize] using hc.1
  · simpa [SharedFinalize] using hc.2

/-- C10: a search finalized with a degraded goal — an impassable literal
target node for which thread binding substituted an alternate node found by
the external lookup — reports the full-path flag as false even when the
main loop reached the substituted target (`haveFullPath` arbitrary, here
whatever the state holds), while the partial-path flag is copied from the
search state unaffected by the degraded-goal condition. -/
theorem C10_degraded_goal (env : SearchEnv) (getPool : Int → INode)
    (cap : Nat) (srcN tgtN alt : Int) (tp : Float3) (st : SearchState)
    (path : IPath) (raw : Bool) (fuel : Nat)
    (himp : (getPool tgtN).impassable = true)
    (hbad : st.badGoal = true) :
    (InitializeThread getPool cap srcN tgtN (some alt) tp).badGoal = true ∧
    (InitializeThread getPool cap srcN tgtN (some alt) tp).tgtIdx = alt ∧
    (Finalize env st raw fuel path).haveFullPath = false ∧
    (∀ st2 : SearchState,
      (Finalize env st2 raw fuel path).havePartPath = st2.havePartPath) := by
  refine ⟨?_, ?_, ?_, fun st2 => ?_⟩
  · simp [InitializeThread, himp]
  · simp [InitializeThread, himp]
  · simp [Finalize, hbad]
  · simp [Finalize]

/-- Witness for C10: the degraded-goal corridor request — the loop
short-circuit reached the substituted target (haveFullPath true), yet the
finalized full-path flag is false. -/
theorem C10_degraded_goal_witness :
    ((poolC4 5).impassable = true ∧ runC4.badGoal = true ∧
      runC4.haveFullPath = true) ∧
    ((InitializeThread poolC4 8 0 5 (some 0) ⟨9, 0, 0⟩).badGoal = true ∧
    (InitializeThread poolC4 8 0 5 (some 0) ⟨9, 0, 0⟩).tgtIdx = 0 ∧
    (Finalize envC4 runC4 false 10 pathInit).haveFullPath = false ∧
    (∀ st2 : SearchState,
      (Finalize envC4 st2 false 10 pathInit).havePartPath =
        st2.havePartPath)) :=
  ⟨⟨by decide, by decide, by decide⟩,
    C10_degraded_goal envC4 poolC4 8 0 5 0 ⟨9, 0, 0⟩ runC4 pathInit false 10
      (by decide) (by decide)⟩

end QTPFS
